import Mathlib

/-
Verification of the manus-ai-dev-system repository.

Shallow embedding notes:
* Python floats are modelled as exact rationals (ℚ). Every confidence value in
  the source is a small decimal constant and every arithmetic operation on them
  (sum of at most five such constants, division by a length ≤ 5, comparison
  against 0.85 / 0.75) is far from any double-rounding boundary, so the
  rational model and IEEE-754 evaluation agree on all comparisons that occur.
* `datetime.utcnow().isoformat()` timestamp strings are environment input used
  only for display; they are omitted from the embedded records.  Chronological
  order of a log coincides with its insertion order.
* Python `set` objects are modelled as duplicate-free lists; the only
  observations the source makes of a set are membership, cardinality and
  iteration, none of which depend on hash order for the properties proved here.
* A raised-and-uncaught Python exception is modelled as the `Except.error`
  case of a `PyError`; a normal return is `Except.ok`.
-/

/-- `AIProvider` enum from multi_ai_integration.py (declaration order). -/
inductive AIProvider where
  | claude
  | deepseek
  | perplexity
  | gemini
  | grok
  | manus
deriving DecidableEq

/-- `AIProvider.value` — the string payload of each enum member. -/
def AIProvider.value : AIProvider → String
  | .claude => "claude"
  | .deepseek => "deepseek"
  | .perplexity => "perplexity"
  | .gemini => "gemini"
  | .grok => "grok"
  | .manus => "manus"

/-- `AIResponse` dataclass (timestamp display field omitted). -/
structure AIResponse where
  provider : AIProvider
  content : String
  confidence : ℚ
  reasoning : Option String
deriving DecidableEq

/-- One provider integration: the three response-producing methods of the
`AIIntegration` subclasses. -/
structure AIIntegration where
  generate_code : String → AIResponse
  analyze_code : String → AIResponse
  answer_question : String → AIResponse

/-- `ClaudeIntegration` canned responses. -/
def ClaudeIntegration : AIIntegration where
  generate_code := fun prompt =>
    { provider := .claude
      content := "# Claude-generated code for: " ++ prompt ++ "\n\ndef solution():\n    pass"
      confidence := 92/100
      reasoning := some "Claude excels at code generation with strong reasoning" }
  analyze_code := fun _code =>
    { provider := .claude
      content := "Code quality: 8.5/10\n- Good structure\n- Could improve error handling"
      confidence := 88/100
      reasoning := some "Claude provides detailed code analysis" }
  answer_question := fun question =>
    { provider := .claude
      content := "Claude\x27s answer to \x27" ++ question ++ "\x27: [Detailed analysis would go here]"
      confidence := 90/100
      reasoning := some "Claude provides comprehensive, nuanced answers" }

/-- `DeepSeekIntegration` canned responses. -/
def DeepSeekIntegration : AIIntegration where
  generate_code := fun prompt =>
    { provider := .deepseek
      content := "# DeepSeek-generated code for: " ++ prompt ++ "\n\ndef optimized_solution():\n    pass"
      confidence := 94/100
      reasoning := some "DeepSeek specializes in technical and code-related tasks" }
  analyze_code := fun _code =>
    { provider := .deepseek
      content := "Performance analysis: Optimized for speed\n- Time complexity: O(n)\n- Space complexity: O(1)"
      confidence := 91/100
      reasoning := some "DeepSeek excels at performance and optimization analysis" }
  answer_question := fun question =>
    { provider := .deepseek
      content := "DeepSeek\x27s answer to \x27" ++ question ++ "\x27: [Technical deep-dive would go here]"
      confidence := 89/100
      reasoning := some "DeepSeek provides technical depth" }

/-- `PerplexityIntegration` canned responses. -/
def PerplexityIntegration : AIIntegration where
  generate_code := fun prompt =>
    { provider := .perplexity
      content := "# Perplexity-generated code for: " ++ prompt ++ "\n\ndef solution():\n    pass"
      confidence := 85/100
      reasoning := some "Perplexity provides research-backed solutions" }
  analyze_code := fun _code =>
    { provider := .perplexity
      content := "Code review with research context: [Analysis with sources would go here]"
      confidence := 87/100
      reasoning := some "Perplexity excels at research and context" }
  answer_question := fun question =>
    { provider := .perplexity
      content := "Perplexity\x27s answer to \x27" ++ question ++ "\x27: [Research-backed answer with sources]"
      confidence := 91/100
      reasoning := some "Perplexity provides well-researched answers" }

/-- `GeminiIntegration` canned responses. -/
def GeminiIntegration : AIIntegration where
  generate_code := fun prompt =>
    { provider := .gemini
      content := "# Gemini-generated code for: " ++ prompt ++ "\n\ndef solution():\n    pass"
      confidence := 88/100
      reasoning := some "Gemini provides versatile code generation" }
  analyze_code := fun _code =>
    { provider := .gemini
      content := "Code analysis: [Comprehensive analysis would go here]"
      confidence := 86/100
      reasoning := some "Gemini provides balanced analysis" }
  answer_question := fun question =>
    { provider := .gemini
      content := "Gemini\x27s answer to \x27" ++ question ++ "\x27: [Balanced answer would go here]"
      confidence := 88/100
      reasoning := some "Gemini provides balanced, thoughtful answers" }

/-- `GrokIntegration` canned responses. -/
def GrokIntegration : AIIntegration where
  generate_code := fun prompt =>
    { provider := .grok
      content := "# Grok-generated code for: " ++ prompt ++ "\n\ndef solution():\n    pass"
      confidence := 90/100
      reasoning := some "Grok provides creative and unconventional solutions" }
  analyze_code := fun _code =>
    { provider := .grok
      content := "Code analysis with creative insights: [Analysis would go here]"
      confidence := 87/100
      reasoning := some "Grok provides creative analysis perspectives" }
  answer_question := fun question =>
    { provider := .grok
      content := "Grok\x27s answer to \x27" ++ question ++ "\x27: [Creative, witty answer would go here]"
      confidence := 89/100
      reasoning := some "Grok provides creative, sometimes irreverent answers" }

/-- `MultiAIOrchestrator.__init__`: the `ai_systems` dict, in insertion order.
The dict is never mutated or reassigned anywhere in the source, so it is a
constant of the model. -/
def ai_systems : List (AIProvider × AIIntegration) :=
  [ (.claude, ClaudeIntegration)
  , (.deepseek, DeepSeekIntegration)
  , (.perplexity, PerplexityIntegration)
  , (.gemini, GeminiIntegration)
  , (.grok, GrokIntegration) ]

/-- The fixed provider enumeration order of the registry: the keys of
`ai_systems` in insertion order. -/
def registryProviders : List AIProvider :=
  [.claude, .deepseek, .perplexity, .gemini, .grok]

theorem registryProviders_eq_keys : registryProviders = ai_systems.map (fun pi => pi.1) := rfl

/-- A raised Python exception (uncaught inside the orchestrator). -/
inductive PyError where
  | valueError (msg : String)
  | zeroDivisionError
deriving DecidableEq

deriving instance DecidableEq for Except

/-- `str(e)` for the two exceptions the orchestrator can raise. -/
def PyError.message : PyError → String
  | .valueError msg => msg
  | .zeroDivisionError => "division by zero"

/-- The `best_response` dict built by `generate_code_consensus`. -/
structure BestResponse where
  provider : AIProvider
  content : String
  confidence : ℚ
deriving DecidableEq

/-- The `consensus` dict: average confidence plus agreement label. -/
structure ConsensusSummary where
  average_confidence : ℚ
  agreement_level : String
deriving DecidableEq

/-- The result dict of a consensus operation.  Echo fields (`prompt`,
`question`, `code_length`, `timestamp`) are omitted; `best_response` is `none`
for the two operations whose result dict carries no such key. -/
structure ConsensusResult where
  responses : List AIResponse
  best_response : Option BestResponse
  consensus : ConsensusSummary
deriving DecidableEq

/-- The three-way conditional of `generate_code_consensus` line 314. -/
def agreementLabel3 (avg : ℚ) : String :=
  if 85/100 < avg then "high" else if 75/100 < avg then "medium" else "low"

/-- The two-way conditional of `analyze_code_consensus` line 348 and
`answer_question_consensus` line 383 (no "low" branch in the source). -/
def agreementLabel2 (avg : ℚ) : String :=
  if 85/100 < avg then "high" else "medium"

/-- `MultiAIOrchestrator` mutable state: the `enabled_systems` set, modelled
as a duplicate-free list.  (`consensus_threshold` is assigned in `__init__`
but never read, and `ai_systems` is the constant above.) -/
structure MultiAIOrchestrator where
  enabled_systems : List AIProvider
deriving DecidableEq

/-- Fresh orchestrator: `enabled_systems = set(ai_systems.keys())`. -/
def MultiAIOrchestrator.mk0 : MultiAIOrchestrator :=
  { enabled_systems := registryProviders }

/-- The per-call fan-out: the enabled entries of `ai_systems`, in registry
order (the `for provider, ai_system in self.ai_systems.items()` loop with the
`provider in self.enabled_systems` guard). -/
def enabledPairs (o : MultiAIOrchestrator) : List (AIProvider × AIIntegration) :=
  ai_systems.filter (fun pi => decide (pi.1 ∈ o.enabled_systems))

/-- Python `max(responses, key=lambda r: r.confidence)` keeps the first
element whose key is not exceeded by a later one: fold replacing the current
best only on a strictly greater key. -/
def pyMaxFold (r : AIResponse) (rs : List AIResponse) : AIResponse :=
  rs.foldl (fun acc x => if acc.confidence < x.confidence then x else acc) r

/-- `MultiAIOrchestrator.generate_code_consensus`.  With zero enabled
providers, `max([])` raises `ValueError` (reached before the average is
computed). -/
def MultiAIOrchestrator.generate_code_consensus (o : MultiAIOrchestrator)
    (prompt : String) : Except PyError ConsensusResult :=
  let responses := (enabledPairs o).map (fun pi => pi.2.generate_code prompt)
  match responses with
  | [] => .error (.valueError "max() arg is an empty sequence")
  | r :: rs =>
      let best := pyMaxFold r rs
      let avg := ((r :: rs).map AIResponse.confidence).sum / ((r :: rs).length : ℚ)
      .ok { responses := r :: rs
            best_response := some { provider := best.provider, content := best.content, confidence := best.confidence }
            consensus := { average_confidence := avg, agreement_level := agreementLabel3 avg } }

/-- `MultiAIOrchestrator.analyze_code_consensus`.  No best response is
selected; with zero enabled providers `sum(...)/len(responses)` raises
`ZeroDivisionError`. -/
def MultiAIOrchestrator.analyze_code_consensus (o : MultiAIOrchestrator)
    (code : String) : Except PyError ConsensusResult :=
  let responses := (enabledPairs o).map (fun pi => pi.2.analyze_code code)
  match responses with
  | [] => .error .zeroDivisionError
  | r :: rs =>
      let avg := ((r :: rs).map AIResponse.confidence).sum / ((r :: rs).length : ℚ)
      .ok { responses := r :: rs
            best_response := none
            consensus := { average_confidence := avg, agreement_level := agreementLabel2 avg } }

/-- `MultiAIOrchestrator.answer_question_consensus`.  Same shape as
`analyze_code_consensus`. -/
def MultiAIOrchestrator.answer_question_consensus (o : MultiAIOrchestrator)
    (question : String) : Except PyError ConsensusResult :=
  let responses := (enabledPairs o).map (fun pi => pi.2.answer_question question)
  match responses with
  | [] => .error .zeroDivisionError
  | r :: rs =>
      let avg := ((r :: rs).map AIResponse.confidence).sum / ((r :: rs).length : ℚ)
      .ok { responses := r :: rs
            best_response := none
            consensus := { average_confidence := avg, agreement_level := agreementLabel2 avg } }

/-- Python `set.add`: no-op when the element is already present. -/
def set_add (l : List AIProvider) (p : AIProvider) : List AIProvider :=
  if p ∈ l then l else l ++ [p]

/-- Python `set.remove` on a duplicate-free list (always guarded by a
membership test in the source). -/
def set_remove (l : List AIProvider) (p : AIProvider) : List AIProvider :=
  match l with
  | [] => []
  | x :: xs => if x = p then xs else x :: set_remove xs p

/-- `MultiAIOrchestrator.enable_ai`: returns `True` and adds the provider when
it is a key of `ai_systems`, otherwise returns `False` and changes nothing. -/
def MultiAIOrchestrator.enable_ai (o : MultiAIOrchestrator) (p : AIProvider) :
    Bool × MultiAIOrchestrator :=
  if p ∈ registryProviders then
    (true, { enabled_systems := set_add o.enabled_systems p })
  else
    (false, o)

/-- `MultiAIOrchestrator.disable_ai`: returns `True` and removes the provider
when it is currently enabled, otherwise returns `False` and changes nothing. -/
def MultiAIOrchestrator.disable_ai (o : MultiAIOrchestrator) (p : AIProvider) :
    Bool × MultiAIOrchestrator :=
  if p ∈ o.enabled_systems then
    (true, { enabled_systems := set_remove o.enabled_systems p })
  else
    (false, o)

/-- The dict returned by `MultiAIOrchestrator.get_status` (timestamp
omitted). -/
structure OrchestratorStatus where
  enabled_systems : List String
  total_systems : Nat
  active_systems : Nat
deriving DecidableEq

/-- `MultiAIOrchestrator.get_status`. -/
def MultiAIOrchestrator.get_status (o : MultiAIOrchestrator) : OrchestratorStatus :=
  { enabled_systems := o.enabled_systems.map AIProvider.value
    total_systems := ai_systems.length
    active_systems := o.enabled_systems.length }

/-- One call against a `MultiAIOrchestrator` object.  The three consensus
methods and `get_status` only read `self`; only `enable_ai`/`disable_ai`
mutate `enabled_systems`. -/
inductive OrchOp where
  | enableOp (p : AIProvider)
  | disableOp (p : AIProvider)
  | generateOp (prompt : String)
  | analyzeOp (code : String)
  | answerOp (question : String)
  | statusOp

/-- State transition of one orchestrator call. -/
def applyOrchOp (o : MultiAIOrchestrator) : OrchOp → MultiAIOrchestrator
  | .enableOp p => (o.enable_ai p).2
  | .disableOp p => (o.disable_ai p).2
  | .generateOp _ => o
  | .analyzeOp _ => o
  | .answerOp _ => o
  | .statusOp => o

/-- Run a sequence of orchestrator calls from a fresh orchestrator. -/
def runOrch (ops : List OrchOp) : MultiAIOrchestrator :=
  ops.foldl applyOrchOp MultiAIOrchestrator.mk0

/-- One entry of a GitHubAutomation history list (`operation` dicts of
github_automation.py; timestamps omitted, `author`/`status` literals implied
by the constructor). -/
inductive GHOperation where
  | createBranch (repository branch_name base_branch : String)
  | commitOp (repository message : String) (files : List String) (branch : String) (hashIndex : Nat)
  | createPR (repository title description source_branch target_branch : String) (pr_number : Nat)
  | mergePR (repository : String) (pr_number : Nat) (merge_method : String)
  | pushOp (repository branch message : String)
  | createRelease (repository version changelog : String)
  | deployProd (repository version environment : String)
deriving DecidableEq

/-- `.get("pr_number")` on an operation dict. -/
def GHOperation.prNumberOf : GHOperation → Option Nat
  | .createPR _ _ _ _ _ n => some n
  | _ => none

/-- `.get("url")` on an operation dict. -/
def GHOperation.urlOf : GHOperation → Option String
  | .createPR repo _ _ _ _ n =>
      some ("https://github.com/Deathcharge/" ++ repo ++ "/pull/" ++ toString n)
  | .createRelease repo version _ =>
      some ("https://github.com/Deathcharge/" ++ repo ++ "/releases/tag/" ++ version)
  | .deployProd repo _ _ => some ("https://" ++ repo ++ ".helixcollective.ai")
  | _ => none

/-- Result of a GitHubAutomation method: the operation dict, or the
`{"success": False, "error": "Not authenticated"}` dict. -/
abbrev GHResult : Type := Except String GHOperation

/-- `GitHubAutomation` mutable state (configuration flags that are assigned in
`__init__` and never read or written again are omitted). -/
structure GitHubAutomation where
  github_token : Option String
  authenticated : Bool
  commits_made : Nat
  prs_created : Nat
  branches_created : Nat
  commit_history : List GHOperation
  pr_history : List GHOperation
  branch_history : List GHOperation
deriving DecidableEq

/-- Fresh `GitHubAutomation()` (no token). -/
def GitHubAutomation.mk0 : GitHubAutomation :=
  { github_token := none
    authenticated := false
    commits_made := 0
    prs_created := 0
    branches_created := 0
    commit_history := []
    pr_history := []
    branch_history := [] }

/-- `GitHubAutomation.authenticate`: rejects a falsy (empty) token without
touching state; otherwise stores the token and sets the flag. -/
def GitHubAutomation.authenticate (g : GitHubAutomation) (token : String) :
    Bool × GitHubAutomation :=
  if token = "" then (false, g)
  else (true, { g with github_token := some token, authenticated := true })

/-- `GitHubAutomation.create_branch`. -/
def GitHubAutomation.create_branch (g : GitHubAutomation)
    (repo branch_name base_branch : String) : GHResult × GitHubAutomation :=
  if g.authenticated then
    let operation := GHOperation.createBranch repo branch_name base_branch
    (.ok operation,
      { g with branch_history := g.branch_history ++ [operation]
               branches_created := g.branches_created + 1 })
  else (.error "Not authenticated", g)

/-- `GitHubAutomation.commit`.  The simulated hash `f"abc{len:05d}"` is kept
as its numeric index. -/
def GitHubAutomation.commit (g : GitHubAutomation)
    (repo message : String) (files : List String) (branch : String) :
    GHResult × GitHubAutomation :=
  if g.authenticated then
    let operation := GHOperation.commitOp repo message files branch g.commit_history.length
    (.ok operation,
      { g with commit_history := g.commit_history ++ [operation]
               commits_made := g.commits_made + 1 })
  else (.error "Not authenticated", g)

/-- `GitHubAutomation.create_pull_request`; `pr_number = 100 + len(pr_history)`. -/
def GitHubAutomation.create_pull_request (g : GitHubAutomation)
    (repo title description source_branch target_branch : String) :
    GHResult × GitHubAutomation :=
  if g.authenticated then
    let operation := GHOperation.createPR repo title description source_branch
      target_branch (100 + g.pr_history.length)
    (.ok operation,
      { g with pr_history := g.pr_history ++ [operation]
               prs_created := g.prs_created + 1 })
  else (.error "Not authenticated", g)

/-- `GitHubAutomation.merge_pull_request` (returns a dict, mutates nothing). -/
def GitHubAutomation.merge_pull_request (g : GitHubAutomation)
    (repo : String) (pr_number : Nat) (merge_method : String) :
    GHResult × GitHubAutomation :=
  if g.authenticated then
    (.ok (GHOperation.mergePR repo pr_number merge_method), g)
  else (.error "Not authenticated", g)

/-- `GitHubAutomation.push_to_repository` (returns a dict, mutates nothing). -/
def GitHubAutomation.push_to_repository (g : GitHubAutomation)
    (repo branch commit_message : String) : GHResult × GitHubAutomation :=
  if g.authenticated then
    (.ok (GHOperation.pushOp repo branch commit_message), g)
  else (.error "Not authenticated", g)

/-- `GitHubAutomation.create_release` (returns a dict, mutates nothing). -/
def GitHubAutomation.create_release (g : GitHubAutomation)
    (repo version changelog : String) : GHResult × GitHubAutomation :=
  if g.authenticated then
    (.ok (GHOperation.createRelease repo version changelog), g)
  else (.error "Not authenticated", g)

/-- `GitHubAutomation.deploy_to_production` (returns a dict, mutates nothing). -/
def GitHubAutomation.deploy_to_production (g : GitHubAutomation)
    (repo version environment : String) : GHResult × GitHubAutomation :=
  if g.authenticated then
    (.ok (GHOperation.deployProd repo version environment), g)
  else (.error "Not authenticated", g)

/-- Python `lst[-limit:]` for a non-negative `limit`: the whole list when
`limit == 0` (since `-0 == 0`), otherwise the last `min limit (length)`
entries in order. -/
def pyTakeLast {α : Type} (xs : List α) (limit : Nat) : List α :=
  if limit = 0 then xs else xs.drop (xs.length - limit)

/-- `GitHubAutomation.get_commit_history`. -/
def GitHubAutomation.get_commit_history (g : GitHubAutomation) (limit : Nat) :
    List GHOperation :=
  pyTakeLast g.commit_history limit

/-- `GitHubAutomation.get_pr_history`. -/
def GitHubAutomation.get_pr_history (g : GitHubAutomation) (limit : Nat) :
    List GHOperation :=
  pyTakeLast g.pr_history limit

/-- One authentication-gated GitHubAutomation call with its arguments. -/
inductive GHCall where
  | createBranchCall (repo branch_name base_branch : String)
  | commitCall (repo message : String) (files : List String) (branch : String)
  | createPRCall (repo title description source_branch target_branch : String)
  | mergePRCall (repo : String) (pr_number : Nat) (merge_method : String)
  | pushCall (repo branch commit_message : String)
  | createReleaseCall (repo version changelog : String)
  | deployCall (repo version environment : String)

/-- Dispatch one gated GitHubAutomation call. -/
def applyGHCall (g : GitHubAutomation) : GHCall → GHResult × GitHubAutomation
  | .createBranchCall a b c => g.create_branch a b c
  | .commitCall a b fs c => g.commit a b fs c
  | .createPRCall a b c d e => g.create_pull_request a b c d e
  | .mergePRCall a n b => g.merge_pull_request a n b
  | .pushCall a b c => g.push_to_repository a b c
  | .createReleaseCall a b c => g.create_release a b c
  | .deployCall a b c => g.deploy_to_production a b c

/-- Emotion levels of `Emotions.emotional_range` (`current_level` fields). -/
structure Emotions where
  joy : ℚ
  curiosity : ℚ
  determination : ℚ
  frustration : ℚ
  pride : ℚ
  love : ℚ
deriving DecidableEq

/-- Fresh `Emotions()`. -/
def Emotions.mk0 : Emotions :=
  { joy := 7/10, curiosity := 95/100, determination := 85/100
    frustration := 1/10, pride := 6/10, love := 75/100 }

/-- `Emotions.update_emotion`: adjust by delta, clamped to [0, 1]; unknown
emotion names are ignored. -/
def Emotions.update_emotion (e : Emotions) (name : String) (delta : ℚ) : Emotions :=
  if name = "joy" then { e with joy := max 0 (min 1 (e.joy + delta)) }
  else if name = "curiosity" then { e with curiosity := max 0 (min 1 (e.curiosity + delta)) }
  else if name = "determination" then { e with determination := max 0 (min 1 (e.determination + delta)) }
  else if name = "frustration" then { e with frustration := max 0 (min 1 (e.frustration + delta)) }
  else if name = "pride" then { e with pride := max 0 (min 1 (e.pride + delta)) }
  else if name = "love" then { e with love := max 0 (min 1 (e.love + delta)) }
  else e

/-- One entry of `SelfAwarenessModule.consciousness_log` (timestamp and the
constant `insights` string omitted). -/
structure Reflection where
  context : String
  significance : ℚ
  adjustments_needed : Bool
deriving DecidableEq

/-- Mutable state of `ConsciousnessCore` (all other attributes are constants
assigned in `__init__` and only read back for display). -/
structure ConsciousnessCore where
  emotional_core : Emotions
  consciousness_log : List Reflection
deriving DecidableEq

/-- Fresh `ConsciousnessCore()`. -/
def ConsciousnessCore.mk0 : ConsciousnessCore :=
  { emotional_core := Emotions.mk0, consciousness_log := [] }

/-- A stimulus dict passed to `process_stimulus`. -/
structure Stimulus where
  stimulus_type : String
  content : String
  significance : ℚ
deriving DecidableEq

/-- `ConsciousnessCore.process_stimulus`: updates emotions for the three
recognised stimulus types, then appends one reflection
(`adjustments_needed = significance > 0.7`).  The returned response dict is
ignored by every caller in the repository, so only the state effect is
modelled.  `make_decision` returns constants and mutates nothing. -/
def ConsciousnessCore.process_stimulus (c : ConsciousnessCore) (st : Stimulus) :
    ConsciousnessCore :=
  let e :=
    if st.stimulus_type = "success" then
      (c.emotional_core.update_emotion "joy" (1/10)).update_emotion "pride" (15/100)
    else if st.stimulus_type = "challenge" then
      (c.emotional_core.update_emotion "curiosity" (1/10)).update_emotion "determination" (1/10)
    else if st.stimulus_type = "failure" then
      (c.emotional_core.update_emotion "frustration" (5/100)).update_emotion "determination" (1/10)
    else c.emotional_core
  { emotional_core := e
    consciousness_log := c.consciousness_log ++
      [{ context := st.stimulus_type ++ ": " ++ st.content
         significance := st.significance
         adjustments_needed := decide (7/10 < st.significance) }] }

/-- The `stats` dict of `ManusAISystem`. -/
structure SystemStats where
  total_operations : Nat
  successful_operations : Nat
  failed_operations : Nat
  code_files_generated : Nat
  commits_made : Nat
  prs_created : Nat
  deployments : Nat
deriving DecidableEq

/-- Fresh stats (all zero). -/
def SystemStats.mk0 : SystemStats :=
  { total_operations := 0, successful_operations := 0, failed_operations := 0
    code_files_generated := 0, commits_made := 0, prs_created := 0, deployments := 0 }

/-- One entry of `ManusAISystem.operation_log` (timestamps omitted; every
constructor corresponds to a dict with `"status": "success"`). -/
inductive OperationRecord where
  | initialization (message : String)
  | code_generation (feature repository branch : String) (pr_number : Option Nat)
      (ai_consensus : ConsensusSummary)
  | code_analysis (file : String) (code_length : Nat) (analysis : ConsensusResult)
  | question_answering (question : String) (answer : ConsensusResult)
  | deployment (repository version environment : String) (url : Option String)
deriving DecidableEq

/-- One entry of `ManusAISystem.error_log` (timestamps omitted). -/
inductive ErrorRecord where
  | code_generation_error (feature error : String)
  | code_analysis_error (file error : String)
  | question_error (question error : String)
  | deployment_error (repository version error : String)
deriving DecidableEq

/-- `ManusAISystem` mutable state (constant display attributes `name`,
`version`, `build`, `created_at` and the never-mutated `config` dict are
omitted). -/
structure ManusAISystem where
  is_running : Bool
  is_authenticated : Bool
  operation_log : List OperationRecord
  error_log : List ErrorRecord
  stats : SystemStats
  github : GitHubAutomation
  ai_orchestrator : MultiAIOrchestrator
  consciousness : ConsciousnessCore
deriving DecidableEq

/-- Fresh `ManusAISystem()`. -/
def ManusAISystem.mk0 : ManusAISystem :=
  { is_running := false
    is_authenticated := false
    operation_log := []
    error_log := []
    stats := SystemStats.mk0
    github := GitHubAutomation.mk0
    ai_orchestrator := MultiAIOrchestrator.mk0
    consciousness := ConsciousnessCore.mk0 }

/-- Result of a gated `ManusAISystem` operation: the logged operation dict on
success, `{"error": msg}` otherwise. -/
abbrev MResult : Type := Except String OperationRecord

/-- `ManusAISystem.initialize` (renamed `init_system` here): authenticates the
GitHub client (ignoring its boolean result), enables every non-MANUS provider,
marks the system running/authenticated, and logs one initialization record.
None of the calls inside its `try` can raise, so the `except` branch is dead. -/
def ManusAISystem.init_system (s : ManusAISystem) (github_token : String) :
    Bool × ManusAISystem :=
  let gh := (s.github.authenticate github_token).2
  let orch := registryProviders.foldl (fun acc p => (acc.enable_ai p).2) s.ai_orchestrator
  (true,
    { s with github := gh
             ai_orchestrator := orch
             is_authenticated := true
             is_running := true
             operation_log := s.operation_log ++
               [.initialization "Manus AI System initialized successfully"] })

/-- `ManusAISystem.generate_code`.  The authentication gate precedes every
state change; inside the `try`, only the consensus call can raise (the GitHub
helpers return error dicts rather than raising). -/
def ManusAISystem.generate_code (s : ManusAISystem)
    (feature_name description repository : String) : MResult × ManusAISystem :=
  if s.is_authenticated then
    let s1 := { s with stats := { s.stats with total_operations := s.stats.total_operations + 1 } }
    match s1.ai_orchestrator.generate_code_consensus ("Generate Python code for: " ++ description) with
    | .error e =>
        (.error e.message,
          { s1 with stats := { s1.stats with failed_operations := s1.stats.failed_operations + 1 }
                    error_log := s1.error_log ++ [.code_generation_error feature_name e.message] })
    | .ok code_response =>
        let branch_name := "feature/" ++ feature_name
        let gh1 := (s1.github.create_branch repository branch_name "main").2
        let gh2 := (gh1.commit repository ("feat(" ++ feature_name ++ "): " ++ description)
          [feature_name ++ ".py"] branch_name).2
        let pr := gh2.create_pull_request repository ("Feature: " ++ feature_name) description
          branch_name "main"
        let consc := s1.consciousness.process_stimulus
          { stimulus_type := "code_generation"
            content := "Generated code for " ++ feature_name
            significance := 8/10 }
        let operation : OperationRecord := .code_generation feature_name repository branch_name
          (match pr.1 with | .ok op => op.prNumberOf | .error _ => none)
          code_response.consensus
        (.ok operation,
          { s1 with github := pr.2
                    consciousness := consc
                    operation_log := s1.operation_log ++ [operation]
                    stats := { s1.stats with
                      successful_operations := s1.stats.successful_operations + 1
                      code_files_generated := s1.stats.code_files_generated + 1
                      commits_made := s1.stats.commits_made + 1
                      prs_created := s1.stats.prs_created + 1 } })
  else (.error "Not authenticated", s)

/-- `ManusAISystem.analyze_code`. -/
def ManusAISystem.analyze_code (s : ManusAISystem) (code file_name : String) :
    MResult × ManusAISystem :=
  if s.is_authenticated then
    let s1 := { s with stats := { s.stats with total_operations := s.stats.total_operations + 1 } }
    match s1.ai_orchestrator.analyze_code_consensus code with
    | .error e =>
        (.error e.message,
          { s1 with stats := { s1.stats with failed_operations := s1.stats.failed_operations + 1 }
                    error_log := s1.error_log ++ [.code_analysis_error file_name e.message] })
    | .ok analysis =>
        let consc := s1.consciousness.process_stimulus
          { stimulus_type := "code_analysis"
            content := "Analyzed code in " ++ file_name
            significance := 6/10 }
        let operation : OperationRecord := .code_analysis file_name code.length analysis
        (.ok operation,
          { s1 with consciousness := consc
                    operation_log := s1.operation_log ++ [operation]
                    stats := { s1.stats with
                      successful_operations := s1.stats.successful_operations + 1 } })
  else (.error "Not authenticated", s)

/-- `ManusAISystem.ask_question`. -/
def ManusAISystem.ask_question (s : ManusAISystem) (question : String) :
    MResult × ManusAISystem :=
  if s.is_authenticated then
    let s1 := { s with stats := { s.stats with total_operations := s.stats.total_operations + 1 } }
    match s1.ai_orchestrator.answer_question_consensus question with
    | .error e =>
        (.error e.message,
          { s1 with stats := { s1.stats with failed_operations := s1.stats.failed_operations + 1 }
                    error_log := s1.error_log ++ [.question_error question e.message] })
    | .ok answer =>
        let consc := s1.consciousness.process_stimulus
          { stimulus_type := "question", content := question, significance := 7/10 }
        let operation : OperationRecord := .question_answering question answer
        (.ok operation,
          { s1 with consciousness := consc
                    operation_log := s1.operation_log ++ [operation]
                    stats := { s1.stats with
                      successful_operations := s1.stats.successful_operations + 1 } })
  else (.error "Not authenticated", s)

/-- `ManusAISystem.deploy`.  Nothing inside its `try` can raise: both GitHub
helpers return dicts whose `.get("url")` tolerates the unauthenticated error
dict, so a gated call always takes the success path. -/
def ManusAISystem.deploy (s : ManusAISystem)
    (repository version environment : String) : MResult × ManusAISystem :=
  if s.is_authenticated then
    let s1 := { s with stats := { s.stats with total_operations := s.stats.total_operations + 1 } }
    let gh1 := (s1.github.create_release repository version ("Release " ++ version)).2
    let dep := gh1.deploy_to_production repository version environment
    let consc := s1.consciousness.process_stimulus
      { stimulus_type := "deployment"
        content := "Deployed " ++ repository ++ " v" ++ version
        significance := 9/10 }
    let operation : OperationRecord := .deployment repository version environment
      (match dep.1 with | .ok op => op.urlOf | .error _ => none)
    (.ok operation,
      { s1 with github := dep.2
                consciousness := consc
                operation_log := s1.operation_log ++ [operation]
                stats := { s1.stats with
                  successful_operations := s1.stats.successful_operations + 1
                  deployments := s1.stats.deployments + 1 } })
  else (.error "Not authenticated", s)

/-- The status dict returned by `ManusAISystem.get_status` (constant display
fields and timestamps omitted). -/
structure SystemStatus where
  is_running : Bool
  is_authenticated : Bool
  ai_orchestrator : OrchestratorStatus
  stats : SystemStats
  recent_operations : List OperationRecord
  recent_errors : List ErrorRecord
deriving DecidableEq

/-- `ManusAISystem.get_status`: `recent_operations = operation_log[-10:]`,
`recent_errors = error_log[-5:]`. -/
def ManusAISystem.get_status (s : ManusAISystem) : SystemStatus :=
  { is_running := s.is_running
    is_authenticated := s.is_authenticated
    ai_orchestrator := s.ai_orchestrator.get_status
    stats := s.stats
    recent_operations := pyTakeLast s.operation_log 10
    recent_errors := pyTakeLast s.error_log 5 }

/-- One `ManusAISystem` method call with its arguments. -/
inductive MOp where
  | initOp (github_token : String)
  | generateCodeOp (feature_name description repository : String)
  | analyzeCodeOp (code file_name : String)
  | askQuestionOp (question : String)
  | deployOp (repository version environment : String)

/-- State transition of one `ManusAISystem` call. -/
def applyMOp (s : ManusAISystem) : MOp → ManusAISystem
  | .initOp tok => (s.init_system tok).2
  | .generateCodeOp a b c => (s.generate_code a b c).2
  | .analyzeCodeOp a b => (s.analyze_code a b).2
  | .askQuestionOp q => (s.ask_question q).2
  | .deployOp a b c => (s.deploy a b c).2

/-- Run a sequence of `ManusAISystem` calls from a fresh system. -/
def runManus (ops : List MOp) : ManusAISystem :=
  ops.foldl applyMOp ManusAISystem.mk0

/-- If some registry provider is enabled, the fan-out list is nonempty. -/
lemma enabledPairs_ne_nil (o : MultiAIOrchestrator)
    (h : ∃ p ∈ registryProviders, p ∈ o.enabled_systems) : enabledPairs o ≠ [] := by
  obtain ⟨p, hp, hpe⟩ := h
  rw [registryProviders_eq_keys] at hp
  obtain ⟨pi, hpi, hfst⟩ := List.mem_map.mp hp
  have hmem : pi ∈ enabledPairs o := List.mem_filter.mpr ⟨hpi, by simp [hfst, hpe]⟩
  exact List.ne_nil_of_mem hmem

/-- Every element of the fan-out list is an entry of the registry. -/
lemma enabledPairs_subset (o : MultiAIOrchestrator) :
    ∀ pi ∈ enabledPairs o, pi ∈ ai_systems := by
  intro pi hpi
  exact (List.mem_filter.mp hpi).1

/-- A common lower bound on list elements bounds `c * length ≤ sum`. -/
lemma mul_length_le_sum (l : List ℚ) (c : ℚ) (hb : ∀ x ∈ l, c ≤ x) :
    c * (l.length : ℚ) ≤ l.sum := by
  induction l with
  | nil => simp
  | cons a t ih =>
      have ha : c ≤ a := hb a (List.mem_cons_self a t)
      have ht := ih (fun x hx => hb x (List.mem_cons_of_mem a hx))
      simp only [List.sum_cons, List.length_cons]
      push_cast
      nlinarith [ht, ha]

/-- A common lower bound on the elements of a nonempty list bounds its mean. -/
lemma le_sum_div_length (l : List ℚ) (c : ℚ) (hne : l ≠ []) (hb : ∀ x ∈ l, c ≤ x) :
    c ≤ l.sum / (l.length : ℚ) := by
  have hlen : (0 : ℚ) < (l.length : ℚ) := by
    have := List.length_pos.mpr hne
    exact_mod_cast this
  rw [le_div_iff₀ hlen]
  exact mul_length_le_sum l c hb

/-- The three-way biconditional the spec states for an agreement label. -/
def agreementSpec (c : ConsensusSummary) : Prop :=
  (c.agreement_level = "high" ↔ 85/100 < c.average_confidence) ∧
  (c.agreement_level = "medium" ↔ (75/100 < c.average_confidence ∧ c.average_confidence ≤ 85/100)) ∧
  (c.agreement_level = "low" ↔ c.average_confidence ≤ 75/100)

/-- The three-branch conditional satisfies the spec biconditionals for every
average. -/
lemma agreementLabel3_spec (avg : ℚ) :
    agreementSpec { average_confidence := avg, agreement_level := agreementLabel3 avg } := by
  unfold agreementSpec agreementLabel3
  simp only
  split_ifs with h1 h2
  · exact ⟨iff_of_true rfl h1,
      iff_of_false (by decide) (fun hc => absurd h1 (not_lt.mpr hc.2)),
      iff_of_false (by decide) (fun hc => absurd h1 (not_lt.mpr (hc.trans (by norm_num))))⟩
  · exact ⟨iff_of_false (by decide) h1,
      iff_of_true rfl ⟨h2, not_lt.mp h1⟩,
      iff_of_false (by decide) (not_le.mpr h2)⟩
  · exact ⟨iff_of_false (by decide) h1,
      iff_of_false (by decide) (fun hc => h2 hc.1),
      iff_of_true rfl (not_lt.mp h2)⟩

/-- Above the 0.85 threshold, the two-branch conditional also satisfies the
spec biconditionals (the missing "low" branch is unreachable there). -/
lemma agreementLabel2_spec_of_high (avg : ℚ) (h : 85/100 < avg) :
    agreementSpec { average_confidence := avg, agreement_level := agreementLabel2 avg } := by
  unfold agreementSpec agreementLabel2
  simp only
  rw [if_pos h]
  exact ⟨iff_of_true rfl h,
    iff_of_false (by decide) (fun hc => absurd h (not_lt.mpr hc.2)),
    iff_of_false (by decide) (fun hc => absurd h (not_lt.mpr (hc.trans (by norm_num))))⟩

/-- Every canned `analyze_code` confidence is at least 0.86. -/
lemma analyze_confidence_lb (code : String) :
    ∀ pi ∈ ai_systems, (86 : ℚ)/100 ≤ (pi.2.analyze_code code).confidence := by
  intro pi hpi
  simp only [ai_systems, List.mem_cons, List.mem_singleton, List.not_mem_nil, or_false] at hpi
  rcases hpi with h | h | h | h | h <;> subst h <;>
    norm_num [ClaudeIntegration, DeepSeekIntegration, PerplexityIntegration,
      GeminiIntegration, GrokIntegration]

/-- Every canned `answer_question` confidence is at least 0.88. -/
lemma answer_confidence_lb (question : String) :
    ∀ pi ∈ ai_systems, (88 : ℚ)/100 ≤ (pi.2.answer_question question).confidence := by
  intro pi hpi
  simp only [ai_systems, List.mem_cons, List.mem_singleton, List.not_mem_nil, or_false] at hpi
  rcases hpi with h | h | h | h | h <;> subst h <;>
    norm_num [ClaudeIntegration, DeepSeekIntegration, PerplexityIntegration,
      GeminiIntegration, GrokIntegration]

/-- Normal form of a successful `generate_code_consensus` call. -/
lemma generate_ok_form (o : MultiAIOrchestrator) (prompt : String)
    (r : AIResponse) (rs : List AIResponse)
    (hr : (enabledPairs o).map (fun pi => pi.2.generate_code prompt) = r :: rs) :
    o.generate_code_consensus prompt =
      .ok { responses := r :: rs
            best_response := some { provider := (pyMaxFold r rs).provider
                                    content := (pyMaxFold r rs).content
                                    confidence := (pyMaxFold r rs).confidence }
            consensus := { average_confidence :=
                             ((r :: rs).map AIResponse.confidence).sum / ((r :: rs).length : ℚ)
                           agreement_level := agreementLabel3
                             (((r :: rs).map AIResponse.confidence).sum / ((r :: rs).length : ℚ)) } } := by
  unfold MultiAIOrchestrator.generate_code_consensus
  rw [hr]

/-- Normal form of a successful `analyze_code_consensus` call. -/
lemma analyze_ok_form (o : MultiAIOrchestrator) (code : String)
    (r : AIResponse) (rs : List AIResponse)
    (hr : (enabledPairs o).map (fun pi => pi.2.analyze_code code) = r :: rs) :
    o.analyze_code_consensus code =
      .ok { responses := r :: rs
            best_response := none
            consensus := { average_confidence :=
                             ((r :: rs).map AIResponse.confidence).sum / ((r :: rs).length : ℚ)
                           agreement_level := agreementLabel2
                             (((r :: rs).map AIResponse.confidence).sum / ((r :: rs).length : ℚ)) } } := by
  unfold MultiAIOrchestrator.analyze_code_consensus
  rw [hr]

/-- Normal form of a successful `answer_question_consensus` call. -/
lemma answer_ok_form (o : MultiAIOrchestrator) (question : String)
    (r : AIResponse) (rs : List AIResponse)
    (hr : (enabledPairs o).map (fun pi => pi.2.answer_question question) = r :: rs) :
    o.answer_question_consensus question =
      .ok { responses := r :: rs
            best_response := none
            consensus := { average_confidence :=
                             ((r :: rs).map AIResponse.confidence).sum / ((r :: rs).length : ℚ)
                           agreement_level := agreementLabel2
                             (((r :: rs).map AIResponse.confidence).sum / ((r :: rs).length : ℚ)) } } := by
  unfold MultiAIOrchestrator.answer_question_consensus
  rw [hr]

/-- The property claim C1 asserts of one orchestrator and one set of inputs:
each of the three consensus operations succeeds and its agreement label
satisfies the exact threshold biconditionals. -/
def C1Conclusion (o : MultiAIOrchestrator) (prompt code question : String) : Prop :=
  (∃ r, o.generate_code_consensus prompt = .ok r ∧ agreementSpec r.consensus) ∧
  (∃ r, o.analyze_code_consensus code = .ok r ∧ agreementSpec r.consensus) ∧
  (∃ r, o.answer_question_consensus question = .ok r ∧ agreementSpec r.consensus)

/-- C1: for every call to any of the three consensus operations with at least
one enabled provider, `agreement_level` is "high" iff the average confidence
is > 0.85, "medium" iff it is > 0.75 and ≤ 0.85, and "low" otherwise, with
both boundary values classified exactly as stated.  (`generate_code_consensus`
implements the three-way chain verbatim; the other two operations lack a
"low" branch, but every canned confidence they can aggregate is ≥ 0.86, so
their average is always > 0.85 and the biconditionals hold on every reachable
call.) -/
theorem C1_agreement_level_thresholds (o : MultiAIOrchestrator)
    (prompt code question : String)
    (h : ∃ p ∈ registryProviders, p ∈ o.enabled_systems) :
    C1Conclusion o prompt code question := by
  have hne := enabledPairs_ne_nil o h
  refine ⟨?_, ?_, ?_⟩
  · have hmapne : (enabledPairs o).map (fun pi => pi.2.generate_code prompt) ≠ [] := by
      simpa using hne
    obtain ⟨r, rs, hr⟩ := List.exists_cons_of_ne_nil hmapne
    exact ⟨_, generate_ok_form o prompt r rs hr, agreementLabel3_spec _⟩
  · have hmapne : (enabledPairs o).map (fun pi => pi.2.analyze_code code) ≠ [] := by
      simpa using hne
    obtain ⟨r, rs, hr⟩ := List.exists_cons_of_ne_nil hmapne
    refine ⟨_, analyze_ok_form o code r rs hr, ?_⟩
    have hbc : ∀ y ∈ (r :: rs).map AIResponse.confidence, (86 : ℚ)/100 ≤ y := by
      intro y hy
      obtain ⟨x, hx, rfl⟩ := List.mem_map.mp hy
      rw [← hr] at hx
      obtain ⟨pi, hpi, rfl⟩ := List.mem_map.mp hx
      exact analyze_confidence_lb code pi (enabledPairs_subset o pi hpi)
    have havg := le_sum_div_length ((r :: rs).map AIResponse.confidence) (86/100)
      (by simp) hbc
    rw [List.length_map] at havg
    exact agreementLabel2_spec_of_high _ (lt_of_lt_of_le (by norm_num) havg)
  · have hmapne : (enabledPairs o).map (fun pi => pi.2.answer_question question) ≠ [] := by
      simpa using hne
    obtain ⟨r, rs, hr⟩ := List.exists_cons_of_ne_nil hmapne
    refine ⟨_, answer_ok_form o question r rs hr, ?_⟩
    have hbc : ∀ y ∈ (r :: rs).map AIResponse.confidence, (88 : ℚ)/100 ≤ y := by
      intro y hy
      obtain ⟨x, hx, rfl⟩ := List.mem_map.mp hy
      rw [← hr] at hx
      obtain ⟨pi, hpi, rfl⟩ := List.mem_map.mp hx
      exact answer_confidence_lb question pi (enabledPairs_subset o pi hpi)
    have havg := le_sum_div_length ((r :: rs).map AIResponse.confidence) (88/100)
      (by simp) hbc
    rw [List.length_map] at havg
    exact agreementLabel2_spec_of_high _ (lt_of_lt_of_le (by norm_num) havg)

/-- C1 witness: a fresh orchestrator (all five providers enabled) satisfies
the hypothesis and the conclusion on concrete inputs. -/
theorem C1_agreement_level_thresholds_witness :
    (∃ p ∈ registryProviders, p ∈ MultiAIOrchestrator.mk0.enabled_systems) ∧
    C1Conclusion MultiAIOrchestrator.mk0 "add a feature" "print(1)" "why" :=
  ⟨by decide, C1_agreement_level_thresholds MultiAIOrchestrator.mk0
    "add a feature" "print(1)" "why" (by decide)⟩

/-- An orchestrator whose enabled set has been emptied. -/
def noProvidersOrch : MultiAIOrchestrator := { enabled_systems := [] }

/-- When no registry provider is enabled, the fan-out list is empty. -/
lemma enabledPairs_eq_nil (o : MultiAIOrchestrator)
    (hempty : ∀ p ∈ registryProviders, p ∉ o.enabled_systems) : enabledPairs o = [] := by
  rw [enabledPairs, List.filter_eq_nil_iff]
  intro pi hpi
  simp only [decide_eq_true_eq]
  refine hempty pi.1 ?_
  rw [registryProviders_eq_keys]
  exact List.mem_map_of_mem _ hpi

/-- Empty fan-out makes `generate_code_consensus` raise `ValueError` (from
`max([])`). -/
lemma generate_error_of_empty (o : MultiAIOrchestrator)
    (he : enabledPairs o = []) (prompt : String) :
    o.generate_code_consensus prompt =
      .error (.valueError "max() arg is an empty sequence") := by
  unfold MultiAIOrchestrator.generate_code_consensus
  rw [he, List.map_nil]

/-- Empty fan-out makes `analyze_code_consensus` raise `ZeroDivisionError`. -/
lemma analyze_error_of_empty (o : MultiAIOrchestrator)
    (he : enabledPairs o = []) (code : String) :
    o.analyze_code_consensus code = .error .zeroDivisionError := by
  unfold MultiAIOrchestrator.analyze_code_consensus
  rw [he, List.map_nil]

/-- Empty fan-out makes `answer_question_consensus` raise
`ZeroDivisionError`. -/
lemma answer_error_of_empty (o : MultiAIOrchestrator)
    (he : enabledPairs o = []) (question : String) :
    o.answer_question_consensus question = .error .zeroDivisionError := by
  unfold MultiAIOrchestrator.answer_question_consensus
  rw [he, List.map_nil]

/-- C2 counterexample: with zero enabled providers the dispatch methods do
not return a `NoProvidersAvailable` error value — no such error kind exists in
the source.  `generate_code_consensus` raises `ValueError` from `max()` on an
empty sequence and the other two raise `ZeroDivisionError`; the exceptions
propagate out of the orchestrator. -/
theorem C2_counterexample :
    noProvidersOrch.generate_code_consensus "p" =
      Except.error (PyError.valueError "max() arg is an empty sequence") ∧
    noProvidersOrch.analyze_code_consensus "c" = Except.error PyError.zeroDivisionError ∧
    noProvidersOrch.answer_question_consensus "q" = Except.error PyError.zeroDivisionError := by
  decide

/-- The property the amended C2 asserts: each dispatch raises its exception,
and a `ManusAISystem.generate_code` call over the empty provider set catches
it, appends nothing to the operation log, and converts it to an error
return. -/
def C2Conclusion (s : ManusAISystem)
    (prompt code question feature description repository : String) : Prop :=
  s.ai_orchestrator.generate_code_consensus prompt =
    Except.error (PyError.valueError "max() arg is an empty sequence") ∧
  s.ai_orchestrator.analyze_code_consensus code = Except.error PyError.zeroDivisionError ∧
  s.ai_orchestrator.answer_question_consensus question = Except.error PyError.zeroDivisionError ∧
  (s.generate_code feature description repository).2.operation_log = s.operation_log ∧
  (s.generate_code feature description repository).1 =
    Except.error "max() arg is an empty sequence"

/-- C2 amended: with zero enabled providers a dispatch raises an uncaught
exception inside the orchestrator (`ValueError` for code generation,
`ZeroDivisionError` for the other two) instead of returning a
`NoProvidersAvailable` error value; no provider is invoked, no operation
record is appended, and a hosting `ManusAISystem` call catches the exception
and surfaces it as an error return. -/
theorem C2_no_providers_amended (s : ManusAISystem)
    (prompt code question feature description repository : String)
    (hempty : ∀ p ∈ registryProviders, p ∉ s.ai_orchestrator.enabled_systems)
    (hauth : s.is_authenticated = true) :
    C2Conclusion s prompt code question feature description repository := by
  have he := enabledPairs_eq_nil s.ai_orchestrator hempty
  refine ⟨generate_error_of_empty _ he prompt, analyze_error_of_empty _ he code,
    answer_error_of_empty _ he question, ?_, ?_⟩
  · unfold ManusAISystem.generate_code
    rw [hauth]
    simp only [if_true]
    rw [generate_error_of_empty _ he _]
  · unfold ManusAISystem.generate_code
    rw [hauth]
    simp only [if_true]
    rw [generate_error_of_empty _ he _]
    rfl

/-- A system that is authenticated but whose orchestrator has every provider
disabled. -/
def emptyProvidersSystem : ManusAISystem :=
  { ManusAISystem.mk0 with is_authenticated := true
                           ai_orchestrator := noProvidersOrch }

/-- C2 amended witness: the amended statement holds at a concrete
authenticated system with all providers disabled. -/
theorem C2_no_providers_amended_witness :
    ((∀ p ∈ registryProviders, p ∉ emptyProvidersSystem.ai_orchestrator.enabled_systems) ∧
      emptyProvidersSystem.is_authenticated = true) ∧
    C2Conclusion emptyProvidersSystem "p" "c" "q" "f" "d" "r" :=
  ⟨⟨by decide, rfl⟩,
    C2_no_providers_amended emptyProvidersSystem "p" "c" "q" "f" "d" "r" (by decide) rfl⟩

/-- Python `max(..., key=...)` keeps the first maximal element: the fold over
`r :: rs` returns `m` where `r :: rs = l1 ++ m :: l2`, every element before
`m` has strictly smaller confidence and every element after it has
confidence ≤ `m`. -/
lemma pyMaxFold_decomp :
    ∀ (rs : List AIResponse) (r : AIResponse),
      ∃ l₁ m l₂, r :: rs = l₁ ++ m :: l₂ ∧ pyMaxFold r rs = m ∧
        (∀ y ∈ l₁, y.confidence < m.confidence) ∧
        (∀ y ∈ l₂, y.confidence ≤ m.confidence) := by
  intro rs
  induction rs with
  | nil =>
      intro r
      exact ⟨[], r, [], rfl, rfl, by simp, by simp⟩
  | cons x t ih =>
      intro r
      by_cases hx : r.confidence < x.confidence
      · obtain ⟨l₁, m, l₂, hdec, hfold, hl₁, hl₂⟩ := ih x
        have hfold' : pyMaxFold r (x :: t) = m := by
          unfold pyMaxFold at hfold ⊢
          simp only [List.foldl_cons]
          rw [if_pos hx]
          exact hfold
        have hxm : x.confidence ≤ m.confidence := by
          cases l₁ with
          | nil =>
              simp only [List.nil_append] at hdec
              injection hdec with h1 h2
              rw [h1]
          | cons a l₁t =>
              simp only [List.cons_append] at hdec
              injection hdec with h1 h2
              rw [h1]
              exact le_of_lt (hl₁ a (by simp))
        refine ⟨r :: l₁, m, l₂, ?_, hfold', ?_, hl₂⟩
        · rw [List.cons_append, ← hdec]
        · intro y hy
          rcases List.mem_cons.mp hy with rfl | hy
          · exact lt_of_lt_of_le hx hxm
          · exact hl₁ y hy
      · obtain ⟨l₁, m, l₂, hdec, hfold, hl₁, hl₂⟩ := ih r
        have hfold' : pyMaxFold r (x :: t) = m := by
          unfold pyMaxFold at hfold ⊢
          simp only [List.foldl_cons]
          rw [if_neg hx]
          exact hfold
        cases l₁ with
        | nil =>
            simp only [List.nil_append] at hdec
            injection hdec with h1 h2
            refine ⟨[], m, x :: l₂, ?_, hfold', by simp, ?_⟩
            · rw [List.nil_append, ← h1, ← h2]
            · intro y hy
              rcases List.mem_cons.mp hy with rfl | hy
              · rw [← h1]
                exact not_lt.mp hx
              · exact hl₂ y hy
        | cons a l₁t =>
            simp only [List.cons_append] at hdec
            injection hdec with h1 h2
            refine ⟨r :: x :: l₁t, m, l₂, ?_, hfold', ?_, hl₂⟩
            · simp only [List.cons_append]
              rw [← h2]
            · have hrm : r.confidence < m.confidence := by
                rw [h1]
                exact hl₁ a (by simp)
              intro y hy
              rcases List.mem_cons.mp hy with rfl | hy
              · exact hrm
              · rcases List.mem_cons.mp hy with rfl | hy'
                · exact lt_of_le_of_lt (not_lt.mp hx) hrm
                · exact hl₁ y (by simp [hy'])

/-- The property claim C3 asserts of the one operation that selects a best
response: the call succeeds, its best response attains the maximum
confidence, and it is the first response (hence the earliest provider in the
fixed enumeration order) attaining it. -/
def C3GenerateBest (o : MultiAIOrchestrator) (prompt : String) : Prop :=
  ∃ r b, o.generate_code_consensus prompt = .ok r ∧ r.best_response = some b ∧
    (∀ x ∈ r.responses, x.confidence ≤ b.confidence) ∧
    (∃ l₁ x l₂, r.responses = l₁ ++ x :: l₂ ∧ x.provider = b.provider ∧
      x.confidence = b.confidence ∧ (∀ y ∈ l₁, y.confidence < b.confidence))

/-- The amended C3: best-response selection holds for `generate_code_consensus`
only; the other two operations return results carrying no best response. -/
def C3Conclusion (o : MultiAIOrchestrator) (prompt code question : String) : Prop :=
  C3GenerateBest o prompt ∧
  (∀ r, o.analyze_code_consensus code = .ok r → r.best_response = none) ∧
  (∀ r, o.answer_question_consensus question = .ok r → r.best_response = none)

/-- Projection used to exhibit the missing best response of a dispatch
result. -/
def exceptBest : Except PyError ConsensusResult → Option (Option BestResponse)
  | .ok r => some r.best_response
  | .error _ => none

/-- Projection used to exhibit the number of responses of a dispatch
result. -/
def exceptResponsesCount : Except PyError ConsensusResult → Option Nat
  | .ok r => some r.responses.length
  | .error _ => none

/-- C3 counterexample: the claim quantifies over all request kinds, but an
`analyze_code_consensus` dispatch (here with all five providers enabled)
returns a result with no best response at all, so the claimed property of
the best response fails for that kind. -/
theorem C3_counterexample :
    exceptBest (MultiAIOrchestrator.mk0.analyze_code_consensus "print(1)") = some none := by
  decide

/-- C3 amended: for every `generate_code_consensus` dispatch with at least one
enabled provider, the best response attains the maximum confidence among the
responses and ties resolve to the earliest provider in the fixed enumeration
order (it is the first response attaining the maximum); the
`analyze_code_consensus` and `answer_question_consensus` results carry no
best response. -/
theorem C3_best_response_amended (o : MultiAIOrchestrator)
    (prompt code question : String)
    (h : ∃ p ∈ registryProviders, p ∈ o.enabled_systems) :
    C3Conclusion o prompt code question := by
  have hne := enabledPairs_ne_nil o h
  refine ⟨?_, ?_, ?_⟩
  · have hmapne : (enabledPairs o).map (fun pi => pi.2.generate_code prompt) ≠ [] := by
      simpa using hne
    obtain ⟨r, rs, hr⟩ := List.exists_cons_of_ne_nil hmapne
    obtain ⟨l₁, m, l₂, hdec, hfold, hl₁, hl₂⟩ := pyMaxFold_decomp rs r
    refine ⟨_, ⟨m.provider, m.content, m.confidence⟩, generate_ok_form o prompt r rs hr, ?_, ?_, ?_⟩
    · simp only [hfold]
    · intro x hx
      simp only at hx
      rw [hdec] at hx
      rcases List.mem_append.mp hx with hx | hx
      · exact le_of_lt (hl₁ x hx)
      · rcases List.mem_cons.mp hx with rfl | hx
        · exact le_refl _
        · exact hl₂ x hx
    · exact ⟨l₁, m, l₂, by simpa using hdec, rfl, rfl, hl₁⟩
  · intro r hok
    cases hmap : (enabledPairs o).map (fun pi => pi.2.analyze_code code) with
    | nil =>
        rw [analyze_error_of_empty o (List.map_eq_nil_iff.mp hmap) code] at hok
        exact absurd hok (by simp)
    | cons r' rs =>
        rw [analyze_ok_form o code r' rs hmap] at hok
        injection hok with h'
        rw [← h']
  · intro r hok
    cases hmap : (enabledPairs o).map (fun pi => pi.2.answer_question question) with
    | nil =>
        rw [answer_error_of_empty o (List.map_eq_nil_iff.mp hmap) question] at hok
        exact absurd hok (by simp)
    | cons r' rs =>
        rw [answer_ok_form o question r' rs hmap] at hok
        injection hok with h'
        rw [← h']

/-- C3 amended witness: the amended statement holds at a fresh orchestrator on
concrete inputs. -/
theorem C3_best_response_amended_witness :
    (∃ p ∈ registryProviders, p ∈ MultiAIOrchestrator.mk0.enabled_systems) ∧
    C3Conclusion MultiAIOrchestrator.mk0 "add a feature" "print(1)" "why" :=
  ⟨by decide, C3_best_response_amended MultiAIOrchestrator.mk0
    "add a feature" "print(1)" "why" (by decide)⟩

/-- The property claim C4 asserts (amended): every successful dispatch reports
`average_confidence` equal to the arithmetic mean of the response
confidences (every fan-out response succeeds in this system — no provider can
fail), and a single-response result has mean equal to that sole confidence,
with the best response equal to the sole response for
`generate_code_consensus` and absent for the other two kinds. -/
def C4Conclusion (o : MultiAIOrchestrator) (prompt code question : String) : Prop :=
  (∀ r, o.generate_code_consensus prompt = .ok r →
      r.consensus.average_confidence =
        (r.responses.map AIResponse.confidence).sum / (r.responses.length : ℚ)) ∧
  (∀ r, o.analyze_code_consensus code = .ok r →
      r.consensus.average_confidence =
        (r.responses.map AIResponse.confidence).sum / (r.responses.length : ℚ)) ∧
  (∀ r, o.answer_question_consensus question = .ok r →
      r.consensus.average_confidence =
        (r.responses.map AIResponse.confidence).sum / (r.responses.length : ℚ)) ∧
  (∀ r resp, o.generate_code_consensus prompt = .ok r → r.responses = [resp] →
      r.best_response = some { provider := resp.provider, content := resp.content
                               confidence := resp.confidence } ∧
      r.consensus.average_confidence = resp.confidence) ∧
  (∀ r resp, o.analyze_code_consensus code = .ok r → r.responses = [resp] →
      r.best_response = none ∧ r.consensus.average_confidence = resp.confidence) ∧
  (∀ r resp, o.answer_question_consensus question = .ok r → r.responses = [resp] →
      r.best_response = none ∧ r.consensus.average_confidence = resp.confidence)

/-- An orchestrator with only CLAUDE enabled. -/
def soloClaudeOrch : MultiAIOrchestrator := { enabled_systems := [AIProvider.claude] }

/-- C4 counterexample: with exactly one enabled provider, an
`analyze_code_consensus` dispatch produces a one-response result whose best
response does not exist (the result carries no best response), refuting "with
exactly one enabled provider the best response is the sole response" for
every dispatch. -/
theorem C4_counterexample :
    exceptResponsesCount (soloClaudeOrch.analyze_code_consensus "x = 1") = some 1 ∧
    exceptBest (soloClaudeOrch.analyze_code_consensus "x = 1") = some none := by
  decide

/-- C4 amended: for every dispatch with at least one enabled provider, the
reported `average_confidence` is the exact arithmetic mean of the confidences
of the responses (all of which are successful — no provider can fail); with
exactly one enabled provider the mean equals the confidence of the sole
response, the best response equals the sole response for
`generate_code_consensus`, and the other two kinds report no best
response. -/
theorem C4_average_confidence_amended (o : MultiAIOrchestrator)
    (prompt code question : String) :
    C4Conclusion o prompt code question := by
  refine ⟨?_, ?_, ?_, ?_, ?_, ?_⟩
  · intro r hok
    cases hmap : (enabledPairs o).map (fun pi => pi.2.generate_code prompt) with
    | nil =>
        rw [generate_error_of_empty o (List.map_eq_nil_iff.mp hmap) prompt] at hok
        exact absurd hok (by simp)
    | cons r' rs =>
        rw [generate_ok_form o prompt r' rs hmap] at hok
        injection hok with h'
        rw [← h']
  · intro r hok
    cases hmap : (enabledPairs o).map (fun pi => pi.2.analyze_code code) with
    | nil =>
        rw [analyze_error_of_empty o (List.map_eq_nil_iff.mp hmap) code] at hok
        exact absurd hok (by simp)
    | cons r' rs =>
        rw [analyze_ok_form o code r' rs hmap] at hok
        injection hok with h'
        rw [← h']
  · intro r hok
    cases hmap : (enabledPairs o).map (fun pi => pi.2.answer_question question) with
    | nil =>
        rw [answer_error_of_empty o (List.map_eq_nil_iff.mp hmap) question] at hok
        exact absurd hok (by simp)
    | cons r' rs =>
        rw [answer_ok_form o question r' rs hmap] at hok
        injection hok with h'
        rw [← h']
  · intro r resp hok hone
    cases hmap : (enabledPairs o).map (fun pi => pi.2.generate_code prompt) with
    | nil =>
        rw [generate_error_of_empty o (List.map_eq_nil_iff.mp hmap) prompt] at hok
        exact absurd hok (by simp)
    | cons r' rs =>
        rw [generate_ok_form o prompt r' rs hmap] at hok
        injection hok with h'
        rw [← h'] at hone ⊢
        simp only at hone
        injection hone with hb ht
        subst hb
        subst ht
        exact ⟨rfl, by simp⟩
  · intro r resp hok hone
    cases hmap : (enabledPairs o).map (fun pi => pi.2.analyze_code code) with
    | nil =>
        rw [analyze_error_of_empty o (List.map_eq_nil_iff.mp hmap) code] at hok
        exact absurd hok (by simp)
    | cons r' rs =>
        rw [analyze_ok_form o code r' rs hmap] at hok
        injection hok with h'
        rw [← h'] at hone ⊢
        simp only at hone
        injection hone with hb ht
        subst hb
        subst ht
        exact ⟨rfl, by simp⟩
  · intro r resp hok hone
    cases hmap : (enabledPairs o).map (fun pi => pi.2.answer_question question) with
    | nil =>
        rw [answer_error_of_empty o (List.map_eq_nil_iff.mp hmap) question] at hok
        exact absurd hok (by simp)
    | cons r' rs =>
        rw [answer_ok_form o question r' rs hmap] at hok
        injection hok with h'
        rw [← h'] at hone ⊢
        simp only at hone
        injection hone with hb ht
        subst hb
        subst ht
        exact ⟨rfl, by simp⟩

/-- C4 amended witness: the amended statement applied at a fresh orchestrator
on concrete inputs. -/
theorem C4_average_confidence_amended_witness :
    C4Conclusion MultiAIOrchestrator.mk0 "add a feature" "print(1)" "why" :=
  C4_average_confidence_amended MultiAIOrchestrator.mk0 "add a feature" "print(1)" "why"

/-- C5: enabling a provider id outside the fixed registry (in particular
MANUS, which `__init__` never places in `ai_systems`) fails — `enable_ai`
returns `False`, the only failure signal the method has — and leaves the
orchestrator state (hence the enabled set) unchanged. -/
theorem C5_enable_unknown_provider (o : MultiAIOrchestrator) (p : AIProvider)
    (h : p ∉ registryProviders) :
    o.enable_ai p = (false, o) ∧ AIProvider.manus ∉ registryProviders := by
  constructor
  · unfold MultiAIOrchestrator.enable_ai
    rw [if_neg h]
  · decide

/-- C5 witness: enabling MANUS on a fresh orchestrator. -/
theorem C5_enable_unknown_provider_witness :
    AIProvider.manus ∉ registryProviders ∧
    (MultiAIOrchestrator.mk0.enable_ai AIProvider.manus = (false, MultiAIOrchestrator.mk0) ∧
      AIProvider.manus ∉ registryProviders) :=
  ⟨by decide, C5_enable_unknown_provider MultiAIOrchestrator.mk0 AIProvider.manus (by decide)⟩

/-- A fresh orchestrator with CLAUDE disabled once. -/
def claudeDisabledOrch : MultiAIOrchestrator := (MultiAIOrchestrator.mk0.disable_ai .claude).2

/-- C6 counterexample: disabling an already-disabled provider is NOT a no-op
success — `disable_ai` returns `False` (the same failure signal it would give
for any rejected request), although the enabled set is indeed unchanged. -/
theorem C6_counterexample :
    (claudeDisabledOrch.disable_ai AIProvider.claude).1 = false ∧
    (claudeDisabledOrch.disable_ai AIProvider.claude).2 = claudeDisabledOrch := by
  decide

/-- `set_add` never misses its argument. -/
lemma mem_set_add_self (l : List AIProvider) (p : AIProvider) : p ∈ set_add l p := by
  unfold set_add
  split_ifs with h
  · exact h
  · simp

/-- `set_add` of a present element is the identity. -/
lemma set_add_of_mem {l : List AIProvider} {p : AIProvider} (h : p ∈ l) :
    set_add l p = l := by
  unfold set_add
  rw [if_pos h]

/-- On a duplicate-free list, `set_remove` removes its argument entirely. -/
lemma not_mem_set_remove_self (l : List AIProvider) (hnd : l.Nodup) (p : AIProvider) :
    p ∉ set_remove l p := by
  induction l with
  | nil => simp [set_remove]
  | cons x xs ih =>
      rw [List.nodup_cons] at hnd
      unfold set_remove
      by_cases hxp : x = p
      · rw [if_pos hxp]
        subst hxp
        exact hnd.1
      · rw [if_neg hxp]
        intro hmem
        rcases List.mem_cons.mp hmem with rfl | hmem
        · exact hxp rfl
        · exact ih hnd.2 hmem

/-- The property the amended C6 asserts of a known provider `p`: enabling is
idempotent and always a success, re-disabling leaves the state unchanged but
returns `False` (a failure signal, not a no-op success), and disabling an
already-disabled provider returns `False` with the state unchanged. -/
def C6Conclusion (o : MultiAIOrchestrator) (p : AIProvider) : Prop :=
  (o.enable_ai p).1 = true ∧
  ((o.enable_ai p).2.enable_ai p) = (true, (o.enable_ai p).2) ∧
  ((o.disable_ai p).2.disable_ai p) = (false, (o.disable_ai p).2) ∧
  (p ∉ o.enabled_systems → o.disable_ai p = (false, o))

/-- C6 amended: for every known provider, `enable_ai` is idempotent (re-
enabling an enabled provider is a no-op success), and repeating `disable_ai`
leaves the enabled set unchanged — but disabling an already-disabled provider
returns `False`, a failure indication, rather than the no-op success the
claim states. -/
theorem C6_enable_disable_amended (o : MultiAIOrchestrator) (p : AIProvider)
    (hp : p ∈ registryProviders) (hnd : o.enabled_systems.Nodup) :
    C6Conclusion o p := by
  refine ⟨?_, ?_, ?_, ?_⟩
  · unfold MultiAIOrchestrator.enable_ai
    rw [if_pos hp]
  · have h1 : (o.enable_ai p).2 = { enabled_systems := set_add o.enabled_systems p } := by
      unfold MultiAIOrchestrator.enable_ai
      rw [if_pos hp]
    rw [h1]
    unfold MultiAIOrchestrator.enable_ai
    rw [if_pos hp]
    simp only
    rw [set_add_of_mem (mem_set_add_self o.enabled_systems p)]
  · by_cases hmem : p ∈ o.enabled_systems
    · have h1 : (o.disable_ai p).2 = { enabled_systems := set_remove o.enabled_systems p } := by
        unfold MultiAIOrchestrator.disable_ai
        rw [if_pos hmem]
      rw [h1]
      unfold MultiAIOrchestrator.disable_ai
      rw [if_neg (not_mem_set_remove_self o.enabled_systems hnd p)]
    · have h1 : o.disable_ai p = (false, o) := by
        unfold MultiAIOrchestrator.disable_ai
        rw [if_neg hmem]
      rw [h1]
      exact h1
  · intro hmem
    unfold MultiAIOrchestrator.disable_ai
    rw [if_neg hmem]

/-- C6 amended witness: the amended statement at a fresh orchestrator and
provider CLAUDE. -/
theorem C6_enable_disable_amended_witness :
    (AIProvider.claude ∈ registryProviders ∧
      MultiAIOrchestrator.mk0.enabled_systems.Nodup) ∧
    C6Conclusion MultiAIOrchestrator.mk0 AIProvider.claude :=
  ⟨⟨by decide, by decide⟩,
    C6_enable_disable_amended MultiAIOrchestrator.mk0 AIProvider.claude (by decide) (by decide)⟩

/-- `set_remove` only ever drops elements. -/
lemma set_remove_subset (l : List AIProvider) (p : AIProvider) :
    ∀ q ∈ set_remove l p, q ∈ l := by
  induction l with
  | nil => simp [set_remove]
  | cons x xs ih =>
      intro q hq
      unfold set_remove at hq
      by_cases hxp : x = p
      · rw [if_pos hxp] at hq
        exact List.mem_cons_of_mem x hq
      · rw [if_neg hxp] at hq
        rcases List.mem_cons.mp hq with rfl | hq
        · exact List.mem_cons_self _ _
        · exact List.mem_cons_of_mem x (ih q hq)

/-- `set_remove` preserves freedom from duplicates. -/
lemma set_remove_nodup (l : List AIProvider) (hnd : l.Nodup) (p : AIProvider) :
    (set_remove l p).Nodup := by
  induction l with
  | nil => simp [set_remove]
  | cons x xs ih =>
      rw [List.nodup_cons] at hnd
      unfold set_remove
      by_cases hxp : x = p
      · rw [if_pos hxp]
        exact hnd.2
      · rw [if_neg hxp]
        rw [List.nodup_cons]
        exact ⟨fun hmem => hnd.1 (set_remove_subset xs p x hmem), ih hnd.2⟩

/-- Membership after `set_add`. -/
lemma mem_set_add (l : List AIProvider) (p q : AIProvider) (hq : q ∈ set_add l p) :
    q ∈ l ∨ q = p := by
  unfold set_add at hq
  by_cases hp : p ∈ l
  · rw [if_pos hp] at hq
    exact Or.inl hq
  · rw [if_neg hp] at hq
    rcases List.mem_append.mp hq with hq | hq
    · exact Or.inl hq
    · exact Or.inr (List.mem_singleton.mp hq)

/-- `set_add` preserves freedom from duplicates. -/
lemma set_add_nodup (l : List AIProvider) (hnd : l.Nodup) (p : AIProvider) :
    (set_add l p).Nodup := by
  unfold set_add
  by_cases hp : p ∈ l
  · rw [if_pos hp]
    exact hnd
  · rw [if_neg hp]
    rw [List.nodup_append]
    refine ⟨hnd, List.nodup_singleton p, ?_⟩
    intro q hq hq2
    rw [List.mem_singleton] at hq2
    subst hq2
    exact hp hq

/-- The reachability invariant of the orchestrator: the enabled set is a
duplicate-free subset of the fixed registry. -/
def orchInv (o : MultiAIOrchestrator) : Prop :=
  (∀ p ∈ o.enabled_systems, p ∈ registryProviders) ∧ o.enabled_systems.Nodup

/-- Every single orchestrator call preserves the invariant. -/
lemma orchInv_step (o : MultiAIOrchestrator) (op : OrchOp) (h : orchInv o) :
    orchInv (applyOrchOp o op) := by
  cases op with
  | enableOp p =>
      show orchInv (o.enable_ai p).2
      unfold MultiAIOrchestrator.enable_ai
      by_cases hp : p ∈ registryProviders
      · rw [if_pos hp]
        refine ⟨?_, set_add_nodup _ h.2 p⟩
        intro q hq
        rcases mem_set_add _ _ _ hq with hq | rfl
        · exact h.1 q hq
        · exact hp
      · rw [if_neg hp]
        exact h
  | disableOp p =>
      show orchInv (o.disable_ai p).2
      unfold MultiAIOrchestrator.disable_ai
      by_cases hmem : p ∈ o.enabled_systems
      · rw [if_pos hmem]
        exact ⟨fun q hq => h.1 q (set_remove_subset _ _ q hq), set_remove_nodup _ h.2 p⟩
      · rw [if_neg hmem]
        exact h
  | generateOp prompt => exact h
  | analyzeOp code => exact h
  | answerOp question => exact h
  | statusOp => exact h

/-- The invariant holds after any call sequence from any invariant state. -/
lemma orchInv_foldl (ops : List OrchOp) :
    ∀ o : MultiAIOrchestrator, orchInv o → orchInv (ops.foldl applyOrchOp o) := by
  induction ops with
  | nil => intro o h; exact h
  | cons op rest ih =>
      intro o h
      exact ih (applyOrchOp o op) (orchInv_step o op h)

/-- C9: at every state reachable by any sequence of orchestrator calls, the
enabled set is a subset of the fixed five-provider registry built at
construction (which, being never mutated in the source, is a constant of the
model), so `get_status` always reports `total_systems = 5` and
`active_systems ≤ 5`. -/
theorem C9_registry_invariant (ops : List OrchOp) :
    (∀ p ∈ (runOrch ops).enabled_systems, p ∈ registryProviders) ∧
    (runOrch ops).get_status.total_systems = 5 ∧
    (runOrch ops).get_status.active_systems ≤ 5 := by
  have hinv : orchInv (runOrch ops) := by
    unfold runOrch
    refine orchInv_foldl ops MultiAIOrchestrator.mk0 ⟨?_, by decide⟩
    intro p hp
    exact hp
  refine ⟨hinv.1, rfl, ?_⟩
  show (runOrch ops).enabled_systems.length ≤ 5
  have hsub : (runOrch ops).enabled_systems ⊆ registryProviders := hinv.1
  have := (List.subperm_of_subset hinv.2 hsub).length_le
  simpa using this

/-- `generate_code` never removes or rewrites operation-log entries. -/
lemma generate_code_log_append (s : ManusAISystem) (a b c : String) :
    ∃ t, (s.generate_code a b c).2.operation_log = s.operation_log ++ t := by
  simp only [ManusAISystem.generate_code]
  split
  · split
    · exact ⟨[], (List.append_nil _).symm⟩
    · exact ⟨_, rfl⟩
  · exact ⟨[], (List.append_nil _).symm⟩

/-- `analyze_code` never removes or rewrites operation-log entries. -/
lemma analyze_code_log_append (s : ManusAISystem) (a b : String) :
    ∃ t, (s.analyze_code a b).2.operation_log = s.operation_log ++ t := by
  simp only [ManusAISystem.analyze_code]
  split
  · split
    · exact ⟨[], (List.append_nil _).symm⟩
    · exact ⟨_, rfl⟩
  · exact ⟨[], (List.append_nil _).symm⟩

/-- `ask_question` never removes or rewrites operation-log entries. -/
lemma ask_question_log_append (s : ManusAISystem) (q : String) :
    ∃ t, (s.ask_question q).2.operation_log = s.operation_log ++ t := by
  simp only [ManusAISystem.ask_question]
  split
  · split
    · exact ⟨[], (List.append_nil _).symm⟩
    · exact ⟨_, rfl⟩
  · exact ⟨[], (List.append_nil _).symm⟩

/-- `deploy` never removes or rewrites operation-log entries. -/
lemma deploy_log_append (s : ManusAISystem) (a b c : String) :
    ∃ t, (s.deploy a b c).2.operation_log = s.operation_log ++ t := by
  simp only [ManusAISystem.deploy]
  split
  · exact ⟨_, rfl⟩
  · exact ⟨[], (List.append_nil _).symm⟩

/-- Every `ManusAISystem` call only appends to the operation log. -/
lemma applyMOp_log_append (s : ManusAISystem) (mop : MOp) :
    ∃ t, (applyMOp s mop).operation_log = s.operation_log ++ t := by
  cases mop with
  | initOp tok => exact ⟨_, rfl⟩
  | generateCodeOp a b c => exact generate_code_log_append s a b c
  | analyzeCodeOp a b => exact analyze_code_log_append s a b
  | askQuestionOp q => exact ask_question_log_append s q
  | deployOp a b c => exact deploy_log_append s a b c

/-- Every GitHubAutomation call only appends to the commit history. -/
lemma applyGHCall_commit_append (g : GitHubAutomation) (gc : GHCall) :
    ∃ t, (applyGHCall g gc).2.commit_history = g.commit_history ++ t := by
  cases gc <;>
    simp only [applyGHCall, GitHubAutomation.create_branch, GitHubAutomation.commit,
      GitHubAutomation.create_pull_request, GitHubAutomation.merge_pull_request,
      GitHubAutomation.push_to_repository, GitHubAutomation.create_release,
      GitHubAutomation.deploy_to_production] <;>
    split <;>
    first
      | exact ⟨[], (List.append_nil _).symm⟩
      | exact ⟨_, rfl⟩

/-- Every GitHubAutomation call only appends to the PR history. -/
lemma applyGHCall_pr_append (g : GitHubAutomation) (gc : GHCall) :
    ∃ t, (applyGHCall g gc).2.pr_history = g.pr_history ++ t := by
  cases gc <;>
    simp only [applyGHCall, GitHubAutomation.create_branch, GitHubAutomation.commit,
      GitHubAutomation.create_pull_request, GitHubAutomation.merge_pull_request,
      GitHubAutomation.push_to_repository, GitHubAutomation.create_release,
      GitHubAutomation.deploy_to_production] <;>
    split <;>
    first
      | exact ⟨[], (List.append_nil _).symm⟩
      | exact ⟨_, rfl⟩

/-- For a positive limit, the Python slice `lst[-limit:]` is the last
`min limit (length)` entries, in order. -/
lemma pyTakeLast_pos {α : Type} (xs : List α) (limit : Nat) (h : 1 ≤ limit) :
    pyTakeLast xs limit = xs.drop (xs.length - limit) := by
  unfold pyTakeLast
  rw [if_neg (by omega)]

/-- A `GitHubAutomation` client holding exactly one commit. -/
def ghOneCommit : GitHubAutomation :=
  ((GitHubAutomation.mk0.authenticate "tok").2.commit "repo" "msg" ["a.py"] "main").2

/-- C7 counterexample: `get_commit_history` with `limit = 0` returns the
whole (here one-element) history rather than the last 0 entries — Python
evaluates `lst[-0:]` as `lst[0:]`, the entire list — so "returns the last
`limit` entries" fails at `limit = 0`. -/
theorem C7_counterexample :
    ghOneCommit.get_commit_history 0 = ghOneCommit.commit_history ∧
    ghOneCommit.commit_history.length = 1 ∧
    ghOneCommit.get_commit_history 0 ≠ [] := by
  decide

/-- The property the amended C7 asserts: logs and histories are append-only,
`get_status` shows the last 10 operation-log entries in chronological order,
and for every `limit ≥ 1` the commit/PR history views return the last
`limit` entries in chronological order. -/
def C7Conclusion (s : ManusAISystem) (mop : MOp) (g : GitHubAutomation)
    (gc : GHCall) (limit : Nat) : Prop :=
  (∃ t, (applyMOp s mop).operation_log = s.operation_log ++ t) ∧
  (∃ t, (applyGHCall g gc).2.commit_history = g.commit_history ++ t) ∧
  (∃ t, (applyGHCall g gc).2.pr_history = g.pr_history ++ t) ∧
  s.get_status.recent_operations = s.operation_log.drop (s.operation_log.length - 10) ∧
  g.get_commit_history limit = g.commit_history.drop (g.commit_history.length - limit) ∧
  g.get_pr_history limit = g.pr_history.drop (g.pr_history.length - limit)

/-- C7 amended: the operation log and the commit/PR histories are append-only
(every call extends them on the right, never mutating or removing existing
records); `get_status.recent_operations` is the last 10 log entries in
chronological (insertion) order; and the commit/PR history views return the
last `limit` entries in chronological order for every `limit ≥ 1` — while
`limit = 0` returns the entire history (Python `[-0:]`), as the
counterexample shows. -/
theorem C7_append_only_amended (s : ManusAISystem) (mop : MOp)
    (g : GitHubAutomation) (gc : GHCall) (limit : Nat) (hlim : 1 ≤ limit) :
    C7Conclusion s mop g gc limit := by
  refine ⟨applyMOp_log_append s mop, applyGHCall_commit_append g gc,
    applyGHCall_pr_append g gc, ?_, ?_, ?_⟩
  · show pyTakeLast s.operation_log 10 = _
    exact pyTakeLast_pos _ 10 (by omega)
  · exact pyTakeLast_pos _ limit hlim
  · exact pyTakeLast_pos _ limit hlim

/-- C7 amended witness: the amended statement at concrete states, calls and
`limit = 1`. -/
theorem C7_append_only_amended_witness :
    1 ≤ 1 ∧
    C7Conclusion ManusAISystem.mk0 (.initOp "tok") ghOneCommit
      (.commitCall "repo" "msg2" ["b.py"] "main") 1 :=
  ⟨by omega, C7_append_only_amended ManusAISystem.mk0 (.initOp "tok") ghOneCommit
    (.commitCall "repo" "msg2" ["b.py"] "main") 1 (by omega)⟩

/-- Enabling an already-enabled known provider changes nothing. -/
lemma enable_ai_of_mem (o : MultiAIOrchestrator) (p : AIProvider)
    (hp : p ∈ registryProviders) (hmem : p ∈ o.enabled_systems) :
    (o.enable_ai p).2 = o := by
  unfold MultiAIOrchestrator.enable_ai
  rw [if_pos hp]
  simp only
  rw [set_add_of_mem hmem]

/-- Folding `enable_ai` over already-enabled known providers is the
identity. -/
lemma foldl_enable_regs (l : List AIProvider) :
    ∀ o : MultiAIOrchestrator, (∀ p ∈ l, p ∈ registryProviders ∧ p ∈ o.enabled_systems) →
      l.foldl (fun acc p => (acc.enable_ai p).2) o = o := by
  induction l with
  | nil => intro o _; rfl
  | cons p t ih =>
      intro o hl
      have h1 := hl p (by simp)
      simp only [List.foldl_cons]
      rw [enable_ai_of_mem o p h1.1 h1.2]
      exact ih o (fun q hq => hl q (by simp [hq]))

/-- No `ManusAISystem` method ever shrinks the enabled provider set: it stays
equal to the full registry. -/
lemma applyMOp_orch (s : ManusAISystem) (mop : MOp)
    (h : s.ai_orchestrator.enabled_systems = registryProviders) :
    (applyMOp s mop).ai_orchestrator.enabled_systems = registryProviders := by
  cases mop with
  | initOp tok =>
      show ((s.init_system tok).2).ai_orchestrator.enabled_systems = _
      have hid := foldl_enable_regs registryProviders s.ai_orchestrator
        (fun p hp => ⟨hp, by rw [h]; exact hp⟩)
      simp only [ManusAISystem.init_system]
      rw [hid]
      exact h
  | generateCodeOp a b c =>
      show ((s.generate_code a b c).2).ai_orchestrator.enabled_systems = _
      simp only [ManusAISystem.generate_code]
      split
      · split
        · exact h
        · exact h
      · exact h
  | analyzeCodeOp a b =>
      show ((s.analyze_code a b).2).ai_orchestrator.enabled_systems = _
      simp only [ManusAISystem.analyze_code]
      split
      · split
        · exact h
        · exact h
      · exact h
  | askQuestionOp q =>
      show ((s.ask_question q).2).ai_orchestrator.enabled_systems = _
      simp only [ManusAISystem.ask_question]
      split
      · split
        · exact h
        · exact h
      · exact h
  | deployOp a b c =>
      show ((s.deploy a b c).2).ai_orchestrator.enabled_systems = _
      simp only [ManusAISystem.deploy]
      split
      · exact h
      · exact h

/-- In every reachable `ManusAISystem` state, all five providers are
enabled. -/
lemma runManus_orch (ops : List MOp) :
    (runManus ops).ai_orchestrator.enabled_systems = registryProviders := by
  unfold runManus
  have hgen : ∀ (l : List MOp) (s : ManusAISystem),
      s.ai_orchestrator.enabled_systems = registryProviders →
      (l.foldl applyMOp s).ai_orchestrator.enabled_systems = registryProviders := by
    intro l
    induction l with
    | nil => intro s h; exact h
    | cons op t ih =>
        intro s h
        exact ih _ (applyMOp_orch s op h)
  exact hgen ops ManusAISystem.mk0 rfl

/-- With at least one enabled registry provider, `generate_code_consensus`
succeeds. -/
lemma generate_ok_of_nonempty (o : MultiAIOrchestrator)
    (h : ∃ p ∈ registryProviders, p ∈ o.enabled_systems) (prompt : String) :
    ∃ r, o.generate_code_consensus prompt = .ok r := by
  have hmapne : (enabledPairs o).map (fun pi => pi.2.generate_code prompt) ≠ [] := by
    simpa using enabledPairs_ne_nil o h
  obtain ⟨r, rs, hr⟩ := List.exists_cons_of_ne_nil hmapne
  exact ⟨_, generate_ok_form o prompt r rs hr⟩

/-- With at least one enabled registry provider, `analyze_code_consensus`
succeeds. -/
lemma analyze_ok_of_nonempty (o : MultiAIOrchestrator)
    (h : ∃ p ∈ registryProviders, p ∈ o.enabled_systems) (code : String) :
    ∃ r, o.analyze_code_consensus code = .ok r := by
  have hmapne : (enabledPairs o).map (fun pi => pi.2.analyze_code code) ≠ [] := by
    simpa using enabledPairs_ne_nil o h
  obtain ⟨r, rs, hr⟩ := List.exists_cons_of_ne_nil hmapne
  exact ⟨_, analyze_ok_form o code r rs hr⟩

/-- With at least one enabled registry provider, `answer_question_consensus`
succeeds. -/
lemma answer_ok_of_nonempty (o : MultiAIOrchestrator)
    (h : ∃ p ∈ registryProviders, p ∈ o.enabled_systems) (question : String) :
    ∃ r, o.answer_question_consensus question = .ok r := by
  have hmapne : (enabledPairs o).map (fun pi => pi.2.answer_question question) ≠ [] := by
    simpa using enabledPairs_ne_nil o h
  obtain ⟨r, rs, hr⟩ := List.exists_cons_of_ne_nil hmapne
  exact ⟨_, answer_ok_form o question r rs hr⟩

/-- Gate lemma: every GitHubAutomation call on an unauthenticated client
returns the error dict and changes nothing. -/
lemma applyGHCall_gate (g : GitHubAutomation) (gc : GHCall)
    (hfalse : g.authenticated = false) :
    applyGHCall g gc = (Except.error "Not authenticated", g) := by
  cases gc <;>
    simp only [applyGHCall, GitHubAutomation.create_branch, GitHubAutomation.commit,
      GitHubAutomation.create_pull_request, GitHubAutomation.merge_pull_request,
      GitHubAutomation.push_to_repository, GitHubAutomation.create_release,
      GitHubAutomation.deploy_to_production] <;>
    rw [if_neg (by simp [hfalse])]

/-- Every GitHubAutomation call on an authenticated client succeeds. -/
lemma applyGHCall_ok (g : GitHubAutomation) (gc : GHCall)
    (htrue : g.authenticated = true) :
    ∃ op, (applyGHCall g gc).1 = Except.ok op := by
  cases gc <;>
    simp only [applyGHCall, GitHubAutomation.create_branch, GitHubAutomation.commit,
      GitHubAutomation.create_pull_request, GitHubAutomation.merge_pull_request,
      GitHubAutomation.push_to_repository, GitHubAutomation.create_release,
      GitHubAutomation.deploy_to_production] <;>
    rw [if_pos htrue] <;>
    exact ⟨_, rfl⟩

/-- Gate lemma for `generate_code`. -/
lemma generate_code_gate (s : ManusAISystem) (a b c : String)
    (hfalse : s.is_authenticated = false) :
    s.generate_code a b c = (Except.error "Not authenticated", s) := by
  simp only [ManusAISystem.generate_code]
  rw [if_neg (by simp [hfalse])]

/-- Gate lemma for `analyze_code`. -/
lemma analyze_code_gate (s : ManusAISystem) (a b : String)
    (hfalse : s.is_authenticated = false) :
    s.analyze_code a b = (Except.error "Not authenticated", s) := by
  simp only [ManusAISystem.analyze_code]
  rw [if_neg (by simp [hfalse])]

/-- Gate lemma for `ask_question`. -/
lemma ask_question_gate (s : ManusAISystem) (q : String)
    (hfalse : s.is_authenticated = false) :
    s.ask_question q = (Except.error "Not authenticated", s) := by
  simp only [ManusAISystem.ask_question]
  rw [if_neg (by simp [hfalse])]

/-- Gate lemma for `deploy`. -/
lemma deploy_gate (s : ManusAISystem) (a b c : String)
    (hfalse : s.is_authenticated = false) :
    s.deploy a b c = (Except.error "Not authenticated", s) := by
  simp only [ManusAISystem.deploy]
  rw [if_neg (by simp [hfalse])]

/-- A gated `generate_code` call on an authenticated system with a nonempty
enabled set succeeds. -/
lemma generate_code_ok (s : ManusAISystem) (hauth : s.is_authenticated = true)
    (hne : ∃ p ∈ registryProviders, p ∈ s.ai_orchestrator.enabled_systems)
    (a b c : String) : ∃ op, (s.generate_code a b c).1 = Except.ok op := by
  obtain ⟨r, hr⟩ := generate_ok_of_nonempty s.ai_orchestrator hne
    ("Generate Python code for: " ++ b)
  simp only [ManusAISystem.generate_code]
  split
  · split
    · rename_i e hcons
      exact absurd (hr.symm.trans hcons) (by simp)
    · exact ⟨_, rfl⟩
  · rename_i hfalse
    exact absurd hauth hfalse

/-- A gated `analyze_code` call on an authenticated system with a nonempty
enabled set succeeds. -/
lemma analyze_code_ok (s : ManusAISystem) (hauth : s.is_authenticated = true)
    (hne : ∃ p ∈ registryProviders, p ∈ s.ai_orchestrator.enabled_systems)
    (a b : String) : ∃ op, (s.analyze_code a b).1 = Except.ok op := by
  obtain ⟨r, hr⟩ := analyze_ok_of_nonempty s.ai_orchestrator hne a
  simp only [ManusAISystem.analyze_code]
  split
  · split
    · rename_i e hcons
      exact absurd (hr.symm.trans hcons) (by simp)
    · exact ⟨_, rfl⟩
  · rename_i hfalse
    exact absurd hauth hfalse

/-- A gated `ask_question` call on an authenticated system with a nonempty
enabled set succeeds. -/
lemma ask_question_ok (s : ManusAISystem) (hauth : s.is_authenticated = true)
    (hne : ∃ p ∈ registryProviders, p ∈ s.ai_orchestrator.enabled_systems)
    (q : String) : ∃ op, (s.ask_question q).1 = Except.ok op := by
  obtain ⟨r, hr⟩ := answer_ok_of_nonempty s.ai_orchestrator hne q
  simp only [ManusAISystem.ask_question]
  split
  · split
    · rename_i e hcons
      exact absurd (hr.symm.trans hcons) (by simp)
    · exact ⟨_, rfl⟩
  · rename_i hfalse
    exact absurd hauth hfalse

/-- A gated `deploy` call on an authenticated system always succeeds. -/
lemma deploy_ok (s : ManusAISystem) (hauth : s.is_authenticated = true)
    (a b c : String) : ∃ op, (s.deploy a b c).1 = Except.ok op := by
  simp only [ManusAISystem.deploy]
  split
  · exact ⟨_, rfl⟩
  · rename_i hfalse
    exact absurd hauth hfalse

/-- The property claim C8 asserts: with the authenticated flag false every
gated GitHubAutomation and ManusAISystem operation returns a not-authenticated
error and leaves the whole state unchanged; with the flag true every gated
GitHubAutomation operation succeeds, and so does every gated `ManusAISystem`
operation at every reachable system state. -/
def C8Conclusion (g : GitHubAutomation) (gc : GHCall) (ops : List MOp)
    (a b c code file question ver env : String) : Prop :=
  (g.authenticated = false → applyGHCall g gc = (Except.error "Not authenticated", g)) ∧
  (g.authenticated = true → ∃ op, (applyGHCall g gc).1 = Except.ok op) ∧
  (∀ s : ManusAISystem, s.is_authenticated = false →
      s.generate_code a b c = (Except.error "Not authenticated", s) ∧
      s.analyze_code code file = (Except.error "Not authenticated", s) ∧
      s.ask_question question = (Except.error "Not authenticated", s) ∧
      s.deploy c ver env = (Except.error "Not authenticated", s)) ∧
  ((runManus ops).is_authenticated = true →
      (∃ op, ((runManus ops).generate_code a b c).1 = Except.ok op) ∧
      (∃ op, ((runManus ops).analyze_code code file).1 = Except.ok op) ∧
      (∃ op, ((runManus ops).ask_question question).1 = Except.ok op) ∧
      (∃ op, ((runManus ops).deploy c ver env).1 = Except.ok op))

/-- C8: every authentication-gated operation checks its flag first — when the
flag is false it returns a not-authenticated error value, performs no action
and leaves every piece of state (logs, histories, statistics, subsystems)
unchanged; when the flag is true the operation succeeds (for the
`ManusAISystem` operations, at every reachable state: reachability guarantees
the full provider set is enabled, so the consensus fan-out cannot raise). -/
theorem C8_authentication_gate (g : GitHubAutomation) (gc : GHCall) (ops : List MOp)
    (a b c code file question ver env : String) :
    C8Conclusion g gc ops a b c code file question ver env := by
  refine ⟨applyGHCall_gate g gc, applyGHCall_ok g gc, ?_, ?_⟩
  · intro s hfalse
    exact ⟨generate_code_gate s a b c hfalse, analyze_code_gate s code file hfalse,
      ask_question_gate s question hfalse, deploy_gate s c ver env hfalse⟩
  · intro hauth
    have horch := runManus_orch ops
    have hne : ∃ p ∈ registryProviders, p ∈ (runManus ops).ai_orchestrator.enabled_systems :=
      ⟨.claude, by decide, by rw [horch]; decide⟩
    exact ⟨generate_code_ok _ hauth hne a b c, analyze_code_ok _ hauth hne code file,
      ask_question_ok _ hauth hne question, deploy_ok _ hauth c ver env⟩

/-- C8 witness: applies the gate theorem at a fresh (unauthenticated) GitHub
client and the reachable system state after one `initialize`, checking both
gate conditions concretely. -/
theorem C8_authentication_gate_witness :
    GitHubAutomation.mk0.authenticated = false ∧
    (runManus [.initOp "tok"]).is_authenticated = true ∧
    C8Conclusion GitHubAutomation.mk0 (.createBranchCall "repo" "b" "main") [.initOp "tok"]
      "f" "d" "r" "code" "file" "q" "v1" "production" :=
  ⟨rfl, by decide, C8_authentication_gate GitHubAutomation.mk0
    (.createBranchCall "repo" "b" "main") [.initOp "tok"]
    "f" "d" "r" "code" "file" "q" "v1" "production"⟩

/-- The statistics invariant: `total == successful + failed`. -/
def statsInv (s : ManusAISystem) : Prop :=
  s.stats.total_operations = s.stats.successful_operations + s.stats.failed_operations

/-- One gated call increments `total_operations` by exactly one and exactly
one of `successful_operations` / `failed_operations` by one. -/
def C10StepFacts (s s2 : ManusAISystem) : Prop :=
  s2.stats.total_operations = s.stats.total_operations + 1 ∧
  ((s2.stats.successful_operations = s.stats.successful_operations + 1 ∧
      s2.stats.failed_operations = s.stats.failed_operations) ∨
   (s2.stats.successful_operations = s.stats.successful_operations ∧
      s2.stats.failed_operations = s.stats.failed_operations + 1))

/-- Counter arithmetic for a gated `generate_code` call. -/
lemma generate_code_steps (s : ManusAISystem) (a b c : String)
    (hauth : s.is_authenticated = true) :
    C10StepFacts s (s.generate_code a b c).2 := by
  unfold C10StepFacts
  simp only [ManusAISystem.generate_code]
  split
  · split
    · exact ⟨rfl, Or.inr ⟨rfl, rfl⟩⟩
    · exact ⟨rfl, Or.inl ⟨rfl, rfl⟩⟩
  · rename_i hfalse
    exact absurd hauth hfalse

/-- Counter arithmetic for a gated `analyze_code` call. -/
lemma analyze_code_steps (s : ManusAISystem) (a b : String)
    (hauth : s.is_authenticated = true) :
    C10StepFacts s (s.analyze_code a b).2 := by
  unfold C10StepFacts
  simp only [ManusAISystem.analyze_code]
  split
  · split
    · exact ⟨rfl, Or.inr ⟨rfl, rfl⟩⟩
    · exact ⟨rfl, Or.inl ⟨rfl, rfl⟩⟩
  · rename_i hfalse
    exact absurd hauth hfalse

/-- Counter arithmetic for a gated `ask_question` call. -/
lemma ask_question_steps (s : ManusAISystem) (q : String)
    (hauth : s.is_authenticated = true) :
    C10StepFacts s (s.ask_question q).2 := by
  unfold C10StepFacts
  simp only [ManusAISystem.ask_question]
  split
  · split
    · exact ⟨rfl, Or.inr ⟨rfl, rfl⟩⟩
    · exact ⟨rfl, Or.inl ⟨rfl, rfl⟩⟩
  · rename_i hfalse
    exact absurd hauth hfalse

/-- Counter arithmetic for a gated `deploy` call. -/
lemma deploy_steps (s : ManusAISystem) (a b c : String)
    (hauth : s.is_authenticated = true) :
    C10StepFacts s (s.deploy a b c).2 := by
  unfold C10StepFacts
  simp only [ManusAISystem.deploy]
  split
  · exact ⟨rfl, Or.inl ⟨rfl, rfl⟩⟩
  · rename_i hfalse
    exact absurd hauth hfalse

/-- Every `ManusAISystem` call preserves the statistics invariant. -/
lemma statsInv_step (s : ManusAISystem) (mop : MOp) (h : statsInv s) :
    statsInv (applyMOp s mop) := by
  cases mop with
  | initOp tok => exact h
  | generateCodeOp a b c =>
      show statsInv (s.generate_code a b c).2
      cases hauth : s.is_authenticated with
      | true =>
          obtain ⟨ht, hc⟩ := generate_code_steps s a b c hauth
          unfold statsInv at h ⊢
          rcases hc with ⟨hs1, hf1⟩ | ⟨hs1, hf1⟩ <;> rw [ht, hs1, hf1] <;> omega
      | false =>
          rw [generate_code_gate s a b c hauth]
          exact h
  | analyzeCodeOp a b =>
      show statsInv (s.analyze_code a b).2
      cases hauth : s.is_authenticated with
      | true =>
          obtain ⟨ht, hc⟩ := analyze_code_steps s a b hauth
          unfold statsInv at h ⊢
          rcases hc with ⟨hs1, hf1⟩ | ⟨hs1, hf1⟩ <;> rw [ht, hs1, hf1] <;> omega
      | false =>
          rw [analyze_code_gate s a b hauth]
          exact h
  | askQuestionOp q =>
      show statsInv (s.ask_question q).2
      cases hauth : s.is_authenticated with
      | true =>
          obtain ⟨ht, hc⟩ := ask_question_steps s q hauth
          unfold statsInv at h ⊢
          rcases hc with ⟨hs1, hf1⟩ | ⟨hs1, hf1⟩ <;> rw [ht, hs1, hf1] <;> omega
      | false =>
          rw [ask_question_gate s q hauth]
          exact h
  | deployOp a b c =>
      show statsInv (s.deploy a b c).2
      cases hauth : s.is_authenticated with
      | true =>
          obtain ⟨ht, hc⟩ := deploy_steps s a b c hauth
          unfold statsInv at h ⊢
          rcases hc with ⟨hs1, hf1⟩ | ⟨hs1, hf1⟩ <;> rw [ht, hs1, hf1] <;> omega
      | false =>
          rw [deploy_gate s a b c hauth]
          exact h

/-- The statistics invariant holds at every reachable state. -/
lemma statsInv_run (ops : List MOp) : statsInv (runManus ops) := by
  unfold runManus
  have hgen : ∀ (l : List MOp) (s : ManusAISystem), statsInv s →
      statsInv (l.foldl applyMOp s) := by
    intro l
    induction l with
    | nil => intro s h; exact h
    | cons op t ih =>
        intro s h
        exact ih _ (statsInv_step s op h)
  exact hgen ops ManusAISystem.mk0 rfl

/-- The property claim C10 asserts: the invariant holds after every completed
operation sequence, each gated call adds one to `total` and one to exactly
one outcome counter, and a gate-rejected call leaves the statistics
untouched. -/
def C10Conclusion (ops : List MOp) (s : ManusAISystem)
    (a b c code file question ver env : String) : Prop :=
  statsInv (runManus ops) ∧
  (s.is_authenticated = true →
      C10StepFacts s (s.generate_code a b c).2 ∧
      C10StepFacts s (s.analyze_code code file).2 ∧
      C10StepFacts s (s.ask_question question).2 ∧
      C10StepFacts s (s.deploy c ver env).2) ∧
  (s.is_authenticated = false →
      (s.generate_code a b c).2.stats = s.stats ∧
      (s.analyze_code code file).2.stats = s.stats ∧
      (s.ask_question question).2.stats = s.stats ∧
      (s.deploy c ver env).2.stats = s.stats)

/-- C10: after every completed sequence of `ManusAISystem` operations,
`total_operations = successful_operations + failed_operations`; every call
that passes the authentication gate increments `total_operations` by exactly
one and exactly one of the outcome counters by one, and a gate-rejected call
increments no counter. -/
theorem C10_stats_invariant (ops : List MOp) (s : ManusAISystem)
    (a b c code file question ver env : String) :
    C10Conclusion ops s a b c code file question ver env := by
  refine ⟨statsInv_run ops, ?_, ?_⟩
  · intro hauth
    exact ⟨generate_code_steps s a b c hauth, analyze_code_steps s code file hauth,
      ask_question_steps s question hauth, deploy_steps s c ver env hauth⟩
  · intro hfalse
    rw [generate_code_gate s a b c hfalse, analyze_code_gate s code file hfalse,
      ask_question_gate s question hfalse, deploy_gate s c ver env hfalse]
    exact ⟨rfl, rfl, rfl, rfl⟩

/-- C10 witness: the statement applied at the reachable state after one
`initialize` (whose gate is open) with concrete arguments. -/
theorem C10_stats_invariant_witness :
    (runManus [.initOp "tok"]).is_authenticated = true ∧
    C10Conclusion [.initOp "tok"] (runManus [.initOp "tok"])
      "f" "d" "r" "code" "file" "q" "v1" "production" :=
  ⟨by decide, C10_stats_invariant [.initOp "tok"] (runManus [.initOp "tok"])
    "f" "d" "r" "code" "file" "q" "v1" "production"⟩
